import Mathlib

/-
  Verification development for the SkillSphere recommendation engine
  (app/routes.py, app/models.py).

  The discrete parts of the engine (candidate filtering, skill / rarity /
  complementary / event-type / recency scoring, sorting, creator-diversity
  capping with backfill, and the application state machine of
  manage_post / handle_invitation) are embedded as computable functions
  over rational numbers; Python float values are dyadic rationals, so a
  `ℚ`-valued embedding loses nothing.  The two transcendental components
  (the geopy great-circle distance and the TF-IDF / cosine text-similarity
  pipeline) are embedded separately over `ℝ`; inside the composite ranker
  they enter only through their resulting score values, which the ranker
  definitions take as explicit arguments (`dist`, `nlp`).
-/

namespace SkillSphere

/-- Python truthiness of an `Optional[str]` value: `None` and `''` are falsy. -/
def strTruthy : Option String → Bool
  | none => false
  | some s => s != ""

/-- `models.Skill`: global skill record. -/
structure Skill where
  id : Nat
  name : String
  deriving DecidableEq

/-- `models.ProfileSkill`: association of a profile with a skill,
carrying a proficiency level and a verified flag. -/
structure ProfileSkill where
  profileId : Nat
  skillId : Nat
  level : Int
  isVerified : Bool
  deriving DecidableEq

/-- `models.Profile`: the per-user profile row (only the fields the
recommendation engine reads). -/
structure Profile where
  id : Nat
  userId : Nat
  bio : Option String
  gender : Option String
  location : Option String
  latitude : Option ℚ
  longitude : Option ℚ
  deriving DecidableEq

/-- `models.Post` (only the fields the recommendation engine reads).
`timestamp` is in seconds. -/
structure Post where
  id : Nat
  creatorId : Nat
  eventType : Option String
  genderRequirement : Option String
  location : Option String
  timestamp : Int
  requiredSkillIds : List Nat
  applicationsClosed : Bool
  latitude : Option ℚ
  longitude : Option ℚ
  description : String := ""
  idea : Option String := none
  deriving DecidableEq

/-- `models.Application`: links an applicant to a post with a status in
{"Pending", "Accepted", "Rejected", "Invited"}. -/
structure Application where
  id : Nat
  postId : Nat
  applicantId : Nat
  status : String
  deriving DecidableEq

/-- A read snapshot of the database: the tables the engine reads, in their
enumeration order, plus the evaluation time `now` (seconds). The
`teammates` list is the `post_teammates` association table of
(post id, user id) pairs. -/
structure Snapshot where
  users : List Nat
  profiles : List Profile
  skills : List Skill
  profileSkills : List ProfileSkill
  posts : List Post
  applications : List Application
  teammates : List (Nat × Nat)
  now : Int
  deriving DecidableEq

/-- Name of a skill id, via the `skill` table. -/
def skillNameOf (s : Snapshot) (sid : Nat) : Option String :=
  (s.skills.find? (fun sk => sk.id = sid)).map Skill.name

/-- The profile row of a user id, if any. -/
def profileOf (s : Snapshot) (uid : Nat) : Option Profile :=
  s.profiles.find? (fun p => p.userId = uid)

/-- The post row of a post id, if any (`db.session.get(Post, pid)`). -/
def postById (s : Snapshot) (pid : Nat) : Option Post :=
  s.posts.find? (fun p => p.id = pid)

/-- `profile.skill_associations`. -/
def skillAssociations (s : Snapshot) (prof : Profile) : List ProfileSkill :=
  s.profileSkills.filter (fun a => a.profileId = prof.id)

/-- `{assoc.skill.name.lower() for assoc in user.profile.skill_associations}`:
the user's lowercased skill-name set. -/
def userSkillsOf (s : Snapshot) (prof : Profile) : List String :=
  (((skillAssociations s prof).filterMap
      (fun a => skillNameOf s a.skillId)).map String.toLower).dedup

/-- `{skill.name.lower() for skill in post.required_skills}`. -/
def requiredSkillsOf (s : Snapshot) (p : Post) : List String :=
  ((p.requiredSkillIds.filterMap (skillNameOf s)).map String.toLower).dedup

/-- `select(Application).where(Application.applicant_id == user.id)`. -/
def userApplications (s : Snapshot) (uid : Nat) : List Application :=
  s.applications.filter (fun a => a.applicantId = uid)

/-- Stable insertion of `a` into a list sorted descending by key `k`:
`a` is placed before the first element whose key is `≤ k a`, so that among
equal keys an earlier original element comes first. -/
def insertDescBy {α β : Type} [LinearOrder β] (k : α → β) (a : α) : List α → List α
  | [] => [a]
  | b :: l => if k b ≤ k a then a :: b :: l else b :: insertDescBy k a l

/-- Stable descending sort by key `k`: the semantics of Python's stable
`list.sort(key=..., reverse=True)` / `ORDER BY ... DESC`. -/
def sortDescBy {α β : Type} [LinearOrder β] (k : α → β) : List α → List α
  | [] => []
  | a :: l => insertDescBy k a (sortDescBy k l)

/-- The fixed SKILL_CATEGORIES taxonomy of `get_recommended_posts`. -/
def SKILL_CATEGORIES : List (String × List String) :=
  [("Frontend", ["react", "angular", "vue", "javascript", "html", "css", "typescript", "svelte"]),
   ("Backend", ["python", "java", "node.js", "ruby", "php", "go", "flask", "django", "express.js"]),
   ("Database", ["sql", "mysql", "postgresql", "mongodb", "redis"]),
   ("DevOps", ["docker", "kubernetes", "aws", "gcp", "azure", "jenkins", "ci/cd"]),
   ("Mobile", ["swift", "kotlin", "react native", "flutter", "ios", "android"]),
   ("Data Science", ["machine learning", "tensorflow", "pytorch", "pandas", "numpy", "scikit-learn"]),
   ("Design", ["figma", "adobe xd", "sketch", "ui", "ux", "prototyping"])]

/-- The fixed COMPLEMENTARY_PAIRS adjacency table of `get_recommended_posts`. -/
def COMPLEMENTARY_PAIRS : List (String × List String) :=
  [("Frontend", ["Backend", "Design", "Database"]),
   ("Backend", ["Frontend", "DevOps", "Data Science", "Database"]),
   ("Design", ["Frontend", "Mobile"]),
   ("Data Science", ["Backend", "Database"]),
   ("Mobile", ["Backend", "Design"])]

/-- Categories hit by a (lowercased) skill set: `{cat for cat, skills in
SKILL_CATEGORIES.items() if any(s in skill_set for s in skills)}`. -/
def categoriesOf (skillSet : List String) : List String :=
  (SKILL_CATEGORIES.filter (fun c => c.2.any (fun sk => skillSet.contains sk))).map Prod.fst

/-- Number of `post_required_skills` rows whose skill's stored name equals
`name` (the rarity query; the comparison is exact, against the stored
casing). -/
def rarityCount (s : Snapshot) (name : String) : Nat :=
  ((s.posts.flatMap Post.requiredSkillIds).filter
      (fun sid => skillNameOf s sid = some name)).length

/-- `is_new_user`: no skills, no application history, and no (truthy) bio. -/
def is_new_user (s : Snapshot) (prof : Profile) : Bool :=
  userSkillsOf s prof = [] && userApplications s prof.userId = [] && !(strTruthy prof.bio)

/-- Posts not created by the user and with applications open (the candidate
query of both the cold-start path and the scored path). -/
def openOtherPosts (s : Snapshot) (uid : Nat) : List Post :=
  s.posts.filter (fun p => p.creatorId ≠ uid && !p.applicationsClosed)

/-- The cold-start fallback of `get_recommended_posts`:
the most recent open posts by other users;
`return all_posts[:5] if len(all_posts) >= 5 else all_posts`. -/
def coldStartPosts (s : Snapshot) (uid : Nat) : List Post :=
  let all_posts := sortDescBy Post.timestamp (openOtherPosts s uid)
  if 5 ≤ all_posts.length then all_posts.take 5 else all_posts

/-- Event types the user has applied to or created (truthy ones only). -/
def userEventTypesOf (s : Snapshot) (prof : Profile) : List String :=
  ((userApplications s prof.userId).filterMap
      (fun a => (postById s a.postId).bind
        (fun p => if strTruthy p.eventType then p.eventType else none)))
    ++ ((s.posts.filter (fun p => p.creatorId = prof.userId)).filterMap
      (fun p => if strTruthy p.eventType then p.eventType else none))

/-- Coordinates under the `is not None` presence check used by
`get_recommended_posts` (lines 182-183 and 222-223). -/
def coordsIfNotNone (lat lng : Option ℚ) : Option (ℚ × ℚ) :=
  match lat, lng with
  | some a, some b => some (a, b)
  | _, _ => none

/-- Coordinates under the numeric-truthiness presence check used by
`recommend_users_for_post` (`post.latitude and post.longitude`): a
coordinate equal to 0.0 is falsy and makes the pair absent. -/
def coordsIfTruthy (lat lng : Option ℚ) : Option (ℚ × ℚ) :=
  match lat, lng with
  | some a, some b => if a ≠ 0 && b ≠ 0 then some (a, b) else none
  | _, _ => none

/-- The tiered location score of `get_recommended_posts` (lines 220-233),
as a function of the great-circle distance value `dist uc pc` (a float in
the source, hence exactly a rational). 0 when either pair is absent. -/
def postLocationScore (dist : ℚ × ℚ → ℚ × ℚ → ℚ)
    (userCoords postCoords : Option (ℚ × ℚ)) : ℚ :=
  match userCoords, postCoords with
  | some uc, some pc =>
      let distance_km := dist uc pc
      if distance_km ≤ 50 then 1
      else if distance_km ≤ 120 then 3/5
      else if distance_km ≤ 300 then 3/10
      else 0
  | _, _ => 0

/-- The tiered location score of `recommend_users_for_post` (lines 793-799),
as a function of the distance value. 0 when either pair is absent. -/
def userLocationScore (dist : ℚ × ℚ → ℚ × ℚ → ℚ)
    (postCoords userCoords : Option (ℚ × ℚ)) : ℚ :=
  match postCoords, userCoords with
  | some pc, some uc =>
      let distance_km := dist pc uc
      if distance_km ≤ 50 then 10
      else if distance_km ≤ 100 then 5
      else 0
  | _, _ => 0

/-- Age of a post in whole days (`(now_utc - post_time).days`, floor). -/
def ageDays (now ts : Int) : Int :=
  (now - ts).fdiv 86400

/-- The per-candidate total score of `get_recommended_posts`
(lines 198-244). `dist` supplies the great-circle distance and `nlp` the
text-similarity value of a post id (the two float-valued components
embedded separately over `ℝ` below). -/
def postTotalScore (s : Snapshot) (prof : Profile)
    (dist : ℚ × ℚ → ℚ × ℚ → ℚ) (nlp : Nat → ℚ) (p : Post) : ℚ :=
  let user_skills := userSkillsOf s prof
  let required_skills := requiredSkillsOf s p
  let matched_skills := user_skills.filter (fun sk => required_skills.contains sk)
  let skill_score : ℚ := matched_skills.length
  let rarity_bonus : ℚ := (matched_skills.filter (fun sk => rarityCount s sk < 5)).length
  let user_skill_cats := categoriesOf user_skills
  let post_skill_cats := categoriesOf required_skills
  let missing_cats := post_skill_cats.filter (fun c => !user_skill_cats.contains c)
  let complementary_score : ℚ :=
    (missing_cats.filter (fun missing_cat =>
      user_skill_cats.any (fun user_cat =>
        match COMPLEMENTARY_PAIRS.find? (fun e => e.1 = user_cat) with
        | some e => e.2.contains missing_cat
        | none => false))).length
  let event_type_score : ℚ :=
    match p.eventType with
    | some e => if (userEventTypesOf s prof).contains e then 1 else 0
    | none => 0
  let recency_score : ℚ := max 0 (1 - (ageDays s.now p.timestamp : ℚ) / 30)
  let user_coords := coordsIfNotNone prof.latitude prof.longitude
  let post_coords := coordsIfNotNone p.latitude p.longitude
  let location_score := postLocationScore dist user_coords post_coords
  let nlp_score := nlp p.id
  skill_score * 4 + complementary_score * 8 + rarity_bonus * 2 +
    event_type_score * 3 + recency_score * (3/2) + location_score * 6 + nlp_score * 10

/-- The hard candidate filter of the scored path (lines 193-196): skip
already-applied posts, posts the user is a teammate on, and posts whose
truthy, non-'Any' gender requirement differs from the user's gender. -/
def passesFilters (s : Snapshot) (prof : Profile) (p : Post) : Bool :=
  let applied_post_ids := (userApplications s prof.userId).map Application.postId
  let teammate_post_ids := (s.teammates.filter (fun t => t.2 = prof.userId)).map Prod.fst
  !(applied_post_ids.contains p.id) && !(teammate_post_ids.contains p.id) &&
    !(strTruthy p.genderRequirement && p.genderRequirement ≠ some "Any" &&
      p.genderRequirement ≠ prof.gender)

/-- The scored-and-kept candidate list (score, timestamp, post) of
`get_recommended_posts` before sorting: candidates passing the filters
whose total score is positive. -/
def scoredPosts (s : Snapshot) (prof : Profile)
    (dist : ℚ × ℚ → ℚ × ℚ → ℚ) (nlp : Nat → ℚ) : List (ℚ × Int × Post) :=
  ((openOtherPosts s prof.userId).filter (passesFilters s prof)).filterMap
    (fun p =>
      let total_score := postTotalScore s prof dist nlp p
      if 0 < total_score then some (total_score, p.timestamp, p) else none)

/-- `seen_creators.get(creator_id, 0)`. -/
def seenCount (seen : List (Nat × Nat)) (c : Nat) : Nat :=
  ((seen.find? (fun e => e.1 = c)).map Prod.snd).getD 0

/-- `seen_creators[creator_id] = seen_creators.get(creator_id, 0) + 1`. -/
def bumpSeen (seen : List (Nat × Nat)) (c : Nat) : List (Nat × Nat) :=
  match seen with
  | [] => [(c, 1)]
  | e :: rest => if e.1 = c then (e.1, e.2 + 1) :: rest else e :: bumpSeen rest c

/-- The creator-diversity capping loop of `get_recommended_posts`
(lines 251-259): walk the sorted candidates, skip a post whose creator
already holds 2 slots, stop once `limit` posts are collected. -/
def capLoop (limit : Nat) (acc : List Post) (seen : List (Nat × Nat)) :
    List (ℚ × Int × Post) → List Post
  | [] => acc
  | t :: rest =>
      let post := t.2.2
      if 2 ≤ seenCount seen post.creatorId then capLoop limit acc seen rest
      else
        let acc' := acc ++ [post]
        if limit ≤ acc'.length then acc'
        else capLoop limit acc' (bumpSeen seen post.creatorId) rest

/-- Lines 250-263: stable sort by descending total score, the capping
loop, and the backfill step that ignores the cap when the capped list is
shorter than `limit` while more scored candidates exist. -/
def diversify (limit : Nat) (scored_posts : List (ℚ × Int × Post)) : List Post :=
  let sorted := sortDescBy (fun t => t.1) scored_posts
  let unique_posts := capLoop limit [] [] sorted
  if unique_posts.length < limit ∧ unique_posts.length < sorted.length then
    let remaining_posts := (sorted.map (fun t => t.2.2)).filter (fun p => !unique_posts.contains p)
    unique_posts ++ remaining_posts.take (limit - unique_posts.length)
  else unique_posts

/-- `get_recommended_posts(user, limit=6)` (lines 117-265). `prof` is the
target user's profile row; `dist` and `nlp` supply the values of the two
float-valued components (great-circle distance, text similarity), which
are embedded over `ℝ` separately below. -/
def get_recommended_posts (s : Snapshot) (prof : Profile) (limit : Nat)
    (dist : ℚ × ℚ → ℚ × ℚ → ℚ) (nlp : Nat → ℚ) : List Post :=
  if is_new_user s prof then coldStartPosts s prof.userId
  else diversify limit (scoredPosts s prof dist nlp)

/-- The per-candidate skill score of `recommend_users_for_post`
(lines 776-785): +2 for each required skill the user has, +5 if that
association is verified, plus its level. The association is looked up in
the dict `{assoc.skill.name.lower(): assoc}`, where a later association
with the same lowercased name overwrites an earlier one. -/
def candidateSkillScore (s : Snapshot) (requiredSkills : List String)
    (prof : Profile) : ℚ :=
  let assocs := skillAssociations s prof
  (requiredSkills.map (fun req =>
    match (assocs.reverse.find? (fun a =>
        (skillNameOf s a.skillId).map String.toLower = some req)) with
    | some a => (2 : ℚ) + (if a.isVerified then 5 else 0) + a.level
    | none => 0)).sum

/-- The loop body of `recommend_users_for_post` for one candidate user id:
`None` when the user has no profile (`continue`) or the total score is not
positive; otherwise the (total score, user id) entry. -/
def scoredUserEntry (s : Snapshot) (post : Post)
    (dist : ℚ × ℚ → ℚ × ℚ → ℚ) (uid : Nat) : Option (ℚ × Nat) :=
  match profileOf s uid with
  | none => none
  | some prof =>
      let skill_score := candidateSkillScore s (requiredSkillsOf s post) prof
      let post_coords := coordsIfTruthy post.latitude post.longitude
      let user_coords := coordsIfTruthy prof.latitude prof.longitude
      let location_score := userLocationScore dist post_coords user_coords
      let total_score := skill_score + location_score
      if 0 < total_score then some (total_score, uid) else none

/-- `recommend_users_for_post(post, limit=5)` (lines 758-811), returning
user ids. `dist` supplies the great-circle distance values. -/
def recommend_users_for_post (s : Snapshot) (post : Post) (limit : Nat)
    (dist : ℚ × ℚ → ℚ × ℚ → ℚ) : List Nat :=
  let teammate_ids := (s.teammates.filter (fun t => t.1 = post.id)).map Prod.snd
  let applicant_ids := (s.applications.filter (fun a => a.postId = post.id)).map
    Application.applicantId
  let exclude_ids := teammate_ids ++ applicant_ids ++ [post.creatorId]
  let candidates := s.users.filter (fun uid => !exclude_ids.contains uid)
  let scored_users := candidates.filterMap (scoredUserEntry s post dist)
  ((sortDescBy (fun t => t.1) scored_users).take limit).map Prod.snd

/-- Category of the message `flash`ed to the caller by a route. -/
inductive Flash
  | success
  | warning
  | danger
  | info
  | silent
  deriving DecidableEq

/-- `application.status = st` followed by commit: update the (unique)
application row with the given primary key. -/
def setStatus (apps : List Application) (appId : Nat) (st : String) : List Application :=
  apps.map (fun a => if a.id = appId then { a with status := st } else a)

/-- `assoc.level += 1` on the first `ProfileSkill` row matching the
(profile id, skill id) pair, if any (the `.first()` lookup of
`manage_post`). -/
def incrLevel (rows : List ProfileSkill) (pid sid : Nat) : List ProfileSkill :=
  match rows with
  | [] => []
  | r :: rest =>
      if r.profileId = pid ∧ r.skillId = sid then { r with level := r.level + 1 } :: rest
      else r :: incrLevel rest pid sid

/-- The teammates of a post id. -/
def teammatesOf (s : Snapshot) (postId : Nat) : List Nat :=
  (s.teammates.filter (fun t => t.1 = postId)).map Prod.snd

/-- The accept/reject branch of `manage_post` (routes.py lines 612-632),
reached for the post's creator when the form carries `app_id` and
`action`. Accepting sets the status to 'Accepted', inserts the applicant
into the teammate set if absent, and increments the applicant's
`ProfileSkill.level` for every required skill they possess — with no
check of the application's current status. -/
def manage_post_action (s : Snapshot) (postId : Nat) (appId : Nat)
    (action : String) : Snapshot × Flash :=
  match postById s postId with
  | none => (s, Flash.danger)
  | some post =>
      match s.applications.find? (fun a => a.id = appId) with
      | none => (s, Flash.silent)
      | some application =>
          if application.postId = postId then
            if action = "accept" then
              let apps := setStatus s.applications appId "Accepted"
              let tm :=
                if (teammatesOf s postId).contains application.applicantId then s.teammates
                else s.teammates ++ [(postId, application.applicantId)]
              let ps :=
                match profileOf s application.applicantId with
                | some prof =>
                    post.requiredSkillIds.foldl
                      (fun rows sid => incrLevel rows prof.id sid) s.profileSkills
                | none => s.profileSkills
              ({ s with applications := apps, teammates := tm, profileSkills := ps },
                Flash.success)
            else if action = "reject" then
              ({ s with applications := setStatus s.applications appId "Rejected" },
                Flash.success)
            else (s, Flash.silent)
          else (s, Flash.silent)

/-- `handle_invitation(application_id, action)` (routes.py lines 679-710)
for the logged-in user `currentUserId`. Unlike `manage_post`, it refuses
to act unless the status is exactly 'Invited', and its accept branch does
not touch skill levels. -/
def handle_invitation (s : Snapshot) (currentUserId : Nat) (applicationId : Nat)
    (action : String) : Snapshot × Flash :=
  match s.applications.find? (fun a => a.id = applicationId) with
  | none => (s, Flash.danger)
  | some application =>
      if application.applicantId ≠ currentUserId then (s, Flash.danger)
      else if application.status ≠ "Invited" then (s, Flash.warning)
      else
        match postById s application.postId with
        | none => (s, Flash.danger)
        | some _post =>
            if action = "accept" then
              let apps := setStatus s.applications applicationId "Accepted"
              let tm :=
                if (teammatesOf s application.postId).contains currentUserId then s.teammates
                else s.teammates ++ [(application.postId, currentUserId)]
              ({ s with applications := apps, teammates := tm }, Flash.success)
            else if action = "reject" then
              ({ s with applications := setStatus s.applications applicationId "Rejected" },
                Flash.info)
            else (s, Flash.danger)

/-- Concrete C1 scenario: post 1 (creator 2) requires skill 7; user 3
(profile 30) holds skill 7 at level 1 and their application 5 is already
'Accepted' (they are already a teammate). -/
def c1State : Snapshot where
  users := [2, 3]
  profiles := [⟨30, 3, none, none, none, none, none⟩]
  skills := [⟨7, "Python"⟩]
  profileSkills := [⟨30, 7, 1, false⟩]
  posts := [⟨1, 2, none, none, none, 0, [7], false, none, none, "", none⟩]
  applications := [⟨5, 1, 3, "Accepted"⟩]
  teammates := [(1, 3)]
  now := 0

/-- Number of posts in a list created by `c`. -/
def countCreator (l : List Post) (c : Nat) : Nat :=
  (l.filter (fun p => p.creatorId = c)).length

/-- The scored candidates of `get_recommended_posts` after the stable
descending sort on total score. -/
def sortedScored (s : Snapshot) (prof : Profile)
    (dist : ℚ × ℚ → ℚ × ℚ → ℚ) (nlp : Nat → ℚ) : List (ℚ × Int × Post) :=
  sortDescBy (fun t => t.1) (scoredPosts s prof dist nlp)

/-- The capped list (`unique_posts`) before backfill. -/
def cappedPosts (s : Snapshot) (prof : Profile)
    (dist : ℚ × ℚ → ℚ × ℚ → ℚ) (nlp : Nat → ℚ) (limit : Nat) : List Post :=
  capLoop limit [] [] (sortedScored s prof dist nlp)

/-- The backfill condition of line 260: the capped list is shorter than
the requested limit while more scored candidates exist. -/
def backfillNeeded (s : Snapshot) (prof : Profile)
    (dist : ℚ × ℚ → ℚ × ℚ → ℚ) (nlp : Nat → ℚ) (limit : Nat) : Prop :=
  (cappedPosts s prof dist nlp limit).length < limit ∧
    (cappedPosts s prof dist nlp limit).length < (sortedScored s prof dist nlp).length

/-- Erase every free-text location string from a snapshot (used to state
that the rankers never read them). -/
def scrubLocations (s : Snapshot) : Snapshot :=
  { s with
    profiles := s.profiles.map (fun p => { p with location := none }),
    posts := s.posts.map (fun p => { p with location := none }) }

/-- Modelled from the spec (section 4.4): the spec's free-text fallback
trigger — the first comma-segment of a location string, compared
case-insensitively. The source computes lowercased location strings in
`recommend_users_for_post` (lines 766, 789) but never uses them; this
definition exists only to state the fallback the spec asserts. -/
def firstCommaSegment (s : String) : String :=
  (((s.splitOn ",").headD "").trim).toLower

/-- `math.radians`: degrees to radians. -/
noncomputable def deg2rad (d : ℝ) : ℝ :=
  d * (Real.pi / 180)

/-- `math.atan2 y x`. -/
noncomputable def atan2 (y x : ℝ) : ℝ :=
  if 0 < x then Real.arctan (y / x)
  else if x = 0 then
    (if 0 < y then Real.pi / 2 else if y < 0 then -(Real.pi / 2) else 0)
  else if 0 ≤ y then Real.arctan (y / x) + Real.pi
  else Real.arctan (y / x) - Real.pi

/-- `geopy.distance.great_circle(a, b).kilometers`: spherical law-of-cosines
distance in its numerically stable arctangent form, on a sphere of radius
EARTH_RADIUS = 6371.009 km. Inputs are (latitude, longitude) in degrees.
The floats of the source are modelled as exact reals. -/
noncomputable def great_circle_km (a b : ℝ × ℝ) : ℝ :=
  let lat1 := deg2rad a.1
  let lng1 := deg2rad a.2
  let lat2 := deg2rad b.1
  let lng2 := deg2rad b.2
  let delta_lng := lng2 - lng1
  let y := Real.sqrt ((Real.cos lat2 * Real.sin delta_lng) ^ 2 +
    (Real.cos lat1 * Real.sin lat2 -
      Real.sin lat1 * Real.cos lat2 * Real.cos delta_lng) ^ 2)
  let x := Real.sin lat1 * Real.sin lat2 +
    Real.cos lat1 * Real.cos lat2 * Real.cos delta_lng
  6371.009 * atan2 y x

open Classical in
/-- The tiered proximity score of `get_recommended_posts` (lines 220-233)
over the ideal real-valued great-circle distance. -/
noncomputable def postLocationScoreR (userCoords postCoords : Option (ℝ × ℝ)) : ℝ :=
  match userCoords, postCoords with
  | some uc, some pc =>
      let distance_km := great_circle_km uc pc
      if distance_km ≤ 50 then 1
      else if distance_km ≤ 120 then 0.6
      else if distance_km ≤ 300 then 0.3
      else 0
  | _, _ => 0

open Classical in
/-- The tiered proximity score of `recommend_users_for_post`
(lines 793-799) over the ideal real-valued great-circle distance. -/
noncomputable def userLocationScoreR (postCoords userCoords : Option (ℝ × ℝ)) : ℝ :=
  match postCoords, userCoords with
  | some pc, some uc =>
      let distance_km := great_circle_km pc uc
      if distance_km ≤ 50 then 10
      else if distance_km ≤ 100 then 5
      else 0
  | _, _ => 0

/-- Characters matched by the `\w` of sklearn's default token pattern
`(?u)\b\w\w+\b` (ASCII fragment). -/
def isWordChar (c : Char) : Bool :=
  c.isAlphanum || c == '_'

/-- Maximal runs of word characters of a character list (`cur` is the
current run, reversed). -/
def splitRuns : List Char → List Char → List (List Char)
  | [], cur => if cur.isEmpty then [] else [cur.reverse]
  | c :: rest, cur =>
      if isWordChar c then splitRuns rest (c :: cur)
      else if cur.isEmpty then splitRuns rest [] else cur.reverse :: splitRuns rest []

/-- sklearn's ENGLISH_STOP_WORDS (`stop_words='english'`). The theorems
below do not depend on the particular members. -/
def ENGLISH_STOP_WORDS : List String :=
  ["a", "about", "above", "across", "after", "afterwards", "again", "against",
   "all", "almost", "alone", "along", "already", "also", "although", "always",
   "am", "among", "amongst", "amoungst", "amount", "an", "and", "another",
   "any", "anyhow", "anyone", "anything", "anyway", "anywhere", "are",
   "around", "as", "at", "back", "be", "became", "because", "become",
   "becomes", "becoming", "been", "before", "beforehand", "behind", "being",
   "below", "beside", "besides", "between", "beyond", "bill", "both",
   "bottom", "but", "by", "call", "can", "cannot", "cant", "co", "con",
   "could", "couldnt", "cry", "de", "describe", "detail", "do", "done",
   "down", "due", "during", "each", "eg", "eight", "either", "eleven",
   "else", "elsewhere", "empty", "enough", "etc", "even", "ever", "every",
   "everyone", "everything", "everywhere", "except", "few", "fifteen",
   "fifty", "fill", "find", "fire", "first", "five", "for", "former",
   "formerly", "forty", "found", "four", "from", "front", "full", "further",
   "get", "give", "go", "had", "has", "hasnt", "have", "he", "hence", "her",
   "here", "hereafter", "hereby", "herein", "hereupon", "hers", "herself",
   "him", "himself", "his", "how", "however", "hundred", "i", "ie", "if",
   "in", "inc", "indeed", "interest", "into", "is", "it", "its", "itself",
   "keep", "last", "latter", "latterly", "least", "less", "ltd", "made",
   "many", "may", "me", "meanwhile", "might", "mill", "mine", "more",
   "moreover", "most", "mostly", "move", "much", "must", "my", "myself",
   "name", "namely", "neither", "never", "nevertheless", "next", "nine",
   "no", "nobody", "none", "noone", "nor", "not", "nothing", "now",
   "nowhere", "of", "off", "often", "on", "once", "one", "only", "onto",
   "or", "other", "others", "otherwise", "our", "ours", "ourselves", "out",
   "over", "own", "part", "per", "perhaps", "please", "put", "rather", "re",
   "same", "see", "seem", "seemed", "seeming", "seems", "serious", "several",
   "she", "should", "show", "side", "since", "sincere", "six", "sixty", "so",
   "some", "somehow", "someone", "something", "sometime", "sometimes",
   "somewhere", "still", "such", "system", "take", "ten", "than", "that",
   "the", "their", "them", "themselves", "then", "thence", "there",
   "thereafter", "thereby", "therefore", "therein", "thereupon", "these",
   "they", "thick", "thin", "third", "this", "those", "though", "three",
   "through", "throughout", "thru", "thus", "to", "together", "too", "top",
   "toward", "towards", "twelve", "twenty", "two", "un", "under", "until",
   "up", "upon", "us", "very", "via", "was", "we", "well", "were", "what",
   "whatever", "when", "whence", "whenever", "where", "whereafter",
   "whereas", "whereby", "wherein", "whereupon", "wherever", "whether",
   "which", "while", "whither", "who", "whoever", "whole", "whom", "whose",
   "why", "will", "with", "within", "without", "would", "yet", "you", "your",
   "yours", "yourself", "yourselves"]

/-- The analyzer of `TfidfVectorizer(stop_words='english')`: lowercase,
extract word-character runs of length at least 2, drop stop words. -/
def tokenize (doc : String) : List String :=
  ((splitRuns doc.toLower.toList []).map (fun cs => String.mk cs)).filter
    (fun t => 2 ≤ t.length && !ENGLISH_STOP_WORDS.contains t)

/-- The fitted vocabulary: all distinct surviving terms of the corpus
(sklearn orders it alphabetically; no score below depends on the order). -/
def vocabOf (docs : List (List String)) : List String :=
  (docs.flatMap id).dedup

/-- Document frequency of a term. -/
def docFreq (docs : List (List String)) (t : String) : Nat :=
  (docs.filter (fun d => d.contains t)).length

/-- Term frequency of a term in one document. -/
def termFreq (d : List String) (t : String) : Nat :=
  (d.filter (fun w => w = t)).length

/-- Smoothed inverse document frequency (`smooth_idf=True` default):
`ln((1 + n) / (1 + df)) + 1`. -/
noncomputable def idf (n dfT : Nat) : ℝ :=
  Real.log ((1 + n) / (1 + dfT)) + 1

/-- Sum of squares of a vector. -/
noncomputable def sumSq (v : List ℝ) : ℝ :=
  (v.map (fun x => x ^ 2)).sum

/-- Euclidean (l2) row normalization (`norm='l2'` default); an all-zero
row stays all-zero (in Lean, division by zero is zero). -/
noncomputable def l2normalize (v : List ℝ) : List ℝ :=
  v.map (fun x => x / Real.sqrt (sumSq v))

/-- One row of the TF-IDF matrix, over the fitted vocabulary. -/
noncomputable def tfidfRow (docs : List (List String)) (vocab : List String)
    (d : List String) : List ℝ :=
  l2normalize (vocab.map (fun t => (termFreq d t : ℝ) * idf docs.length (docFreq docs t)))

/-- `TfidfVectorizer(stop_words='english', min_df=1).fit_transform(corpus)`:
`none` models the ValueError raised on an empty vocabulary (e.g. a corpus
of only stop words), which the caller catches. -/
noncomputable def fit_transform (corpus : List String) : Option (List (List ℝ)) :=
  let docs := corpus.map tokenize
  let vocab := vocabOf docs
  if vocab = [] then none
  else some (docs.map (tfidfRow docs vocab))

/-- `(post.description or '') + ' ' + (post.idea or '')`. -/
def postTextOf (p : Post) : String :=
  p.description ++ " " ++ (p.idea.getD "")

/-- The user's liked texts: the text of every applied-to post, with the
bio as fallback when there are none and the bio is truthy. -/
def user_liked_texts (s : Snapshot) (prof : Profile) : List String :=
  let fromApps := (userApplications s prof.userId).filterMap
    (fun a => (postById s a.postId).map postTextOf)
  if fromApps = [] && strTruthy prof.bio then [prof.bio.getD ""] else fromApps

/-- The NLP corpus: every post's text followed by the user's liked texts. -/
def corpusOf (s : Snapshot) (prof : Profile) : List String :=
  (s.posts.map postTextOf) ++ user_liked_texts s prof

/-- `numpy` row mean of equally long rows. -/
noncomputable def meanRows (rows : List (List ℝ)) : List ℝ :=
  match rows with
  | [] => []
  | r :: _ =>
      (rows.foldl (fun acc v => List.zipWith (· + ·) acc v)
        (List.replicate r.length 0)).map (fun x => x / rows.length)

/-- Lines 152-164: the taste vector and per-post vectors. Nothing is
assigned when the corpus has fewer than 2 documents or the vectorizer
raises (`except ValueError: pass`). -/
noncomputable def nlpVectors (s : Snapshot) (prof : Profile) :
    Option (List ℝ) × List (Nat × List ℝ) :=
  let liked := user_liked_texts s prof
  let corpus := corpusOf s prof
  if 1 < corpus.length then
    match fit_transform corpus with
    | none => (none, [])
    | some rows =>
        let post_vectors := (s.posts.zip rows).map (fun pr => (pr.1.id, pr.2))
        let taste :=
          if liked ≠ [] then some (meanRows (rows.drop s.posts.length)) else none
        (taste, post_vectors)
  else (none, [])

/-- Dot product of two vectors. -/
noncomputable def dotL (u v : List ℝ) : ℝ :=
  (List.zipWith (· * ·) u v).sum

/-- `sklearn.metrics.pairwise.cosine_similarity` of two single rows. -/
noncomputable def cosine_similarity (u v : List ℝ) : ℝ :=
  dotL u v / (Real.sqrt (sumSq u) * Real.sqrt (sumSq v))

open Classical in
/-- Lines 214-218: the `nlp_score` of one post — zero unless the taste
vector exists, the post has a vector, and both have a nonzero entry
(`np.any`). -/
noncomputable def nlp_score (s : Snapshot) (prof : Profile) (p : Post) : ℝ :=
  match (nlpVectors s prof).1, (nlpVectors s prof).2.lookup p.id with
  | some tv, some pv =>
      if (∃ x ∈ tv, x ≠ 0) ∧ (∃ x ∈ pv, x ≠ 0) then cosine_similarity tv pv else 0
  | _, _ => 0

/-- A distance oracle used to instantiate concrete scenarios. -/
def distZero : ℚ × ℚ → ℚ × ℚ → ℚ := fun _ _ => 0

/-- An nlp oracle used to instantiate concrete scenarios. -/
def nlpZero : Nat → ℚ := fun _ => 0

/-- Profile of a cold-start user (no skills, no applications, no bio). -/
def coldProf : Profile := ⟨10, 1, none, some "Male", none, none, none⟩

/-- C2 scenario: a cold-start user and six open posts by another user. -/
def c2State : Snapshot where
  users := [1, 2]
  profiles := [coldProf]
  skills := []
  profileSkills := []
  posts :=
    [⟨1, 2, none, none, none, 10, [], false, none, none, "", none⟩,
     ⟨2, 2, none, none, none, 20, [], false, none, none, "", none⟩,
     ⟨3, 2, none, none, none, 30, [], false, none, none, "", none⟩,
     ⟨4, 2, none, none, none, 40, [], false, none, none, "", none⟩,
     ⟨5, 2, none, none, none, 50, [], false, none, none, "", none⟩,
     ⟨6, 2, none, none, none, 60, [], false, none, none, "", none⟩]
  applications := []
  teammates := []
  now := 100

/-- C3 scenario: a post whose gender requirement ('Female') mismatches the
cold-start user's gender ('Male'). -/
def c3Post : Post := ⟨1, 2, none, some "Female", none, 10, [], false, none, none, "", none⟩

/-- C3 cold-start snapshot containing only the mismatched post. -/
def c3State : Snapshot where
  users := [1, 2]
  profiles := [coldProf]
  skills := []
  profileSkills := []
  posts := [c3Post]
  applications := []
  teammates := []
  now := 100

/-- Profile of a non-cold-start user (has a bio and a skill). -/
def warmProf : Profile := ⟨10, 1, some "I build backends", some "Male", none, none, none⟩

/-- C3 witness snapshot: a warm user holding skill 'Python', one matching
open post and one gender-mismatched open post. -/
def c3WitState : Snapshot where
  users := [1, 2]
  profiles := [warmProf]
  skills := [⟨7, "Python"⟩]
  profileSkills := [⟨10, 7, 1, false⟩]
  posts :=
    [⟨1, 2, none, none, none, 0, [7], false, none, none, "", none⟩,
     c3Post]
  applications := []
  teammates := []
  now := 0

/-- C4 scenario: a cold-start user and five open posts, all by creator 2. -/
def c4State : Snapshot where
  users := [1, 2]
  profiles := [coldProf]
  skills := []
  profileSkills := []
  posts :=
    [⟨1, 2, none, none, none, 10, [], false, none, none, "", none⟩,
     ⟨2, 2, none, none, none, 20, [], false, none, none, "", none⟩,
     ⟨3, 2, none, none, none, 30, [], false, none, none, "", none⟩,
     ⟨4, 2, none, none, none, 40, [], false, none, none, "", none⟩,
     ⟨5, 2, none, none, none, 50, [], false, none, none, "", none⟩]
  applications := []
  teammates := []
  now := 100

/-- C6 scenario: a post located in "Chennai, India" with no coordinates. -/
def c6Post : Post :=
  ⟨1, 2, none, none, some "Chennai, India", 0, [], false, none, none, "", none⟩

/-- C6 scenario: a candidate user located in "chennai" with no coordinates
and no skills. -/
def c6Prof : Profile := ⟨30, 3, none, none, some "chennai", none, none⟩

/-- C6 scenario snapshot. -/
def c6State : Snapshot where
  users := [2, 3]
  profiles := [c6Prof]
  skills := []
  profileSkills := []
  posts := [c6Post]
  applications := []
  teammates := []
  now := 0

/-- An empty database snapshot (C8 witness scenario). -/
def emptyState : Snapshot where
  users := []
  profiles := []
  skills := []
  profileSkills := []
  posts := []
  applications := []
  teammates := []
  now := 0

lemma mem_insertDescBy {α β : Type} [LinearOrder β] (k : α → β) (b a : α)
    (l : List α) : a ∈ insertDescBy k b l ↔ a = b ∨ a ∈ l := by
  induction l with
  | nil => simp [insertDescBy]
  | cons c l ih =>
      by_cases h : k c ≤ k b
      · simp [insertDescBy, h]
      · simp only [insertDescBy, if_neg h, List.mem_cons, ih]
        tauto

lemma mem_sortDescBy {α β : Type} [LinearOrder β] (k : α → β) (a : α)
    (l : List α) : a ∈ sortDescBy k l ↔ a ∈ l := by
  induction l with
  | nil => simp [sortDescBy]
  | cons b l ih => simp [sortDescBy, mem_insertDescBy, ih]

lemma mem_capLoop {limit : Nat} {p : Post} :
    ∀ (l : List (ℚ × Int × Post)) (acc : List Post) (seen : List (Nat × Nat)),
      p ∈ capLoop limit acc seen l → p ∈ acc ∨ ∃ t ∈ l, t.2.2 = p := by
  intro l
  induction l with
  | nil => intro acc seen h; exact Or.inl h
  | cons t rest ih =>
      intro acc seen h
      rw [capLoop] at h
      by_cases h1 : 2 ≤ seenCount seen t.2.2.creatorId
      · rw [if_pos h1] at h
        rcases ih _ _ h with h2 | ⟨u, hu, hu2⟩
        · exact Or.inl h2
        · exact Or.inr ⟨u, List.mem_cons_of_mem _ hu, hu2⟩
      · rw [if_neg h1] at h
        by_cases h2 : limit ≤ (acc ++ [t.2.2]).length
        · rw [if_pos h2] at h
          rcases List.mem_append.1 h with h3 | h3
          · exact Or.inl h3
          · exact Or.inr ⟨t, List.mem_cons_self t rest, (List.mem_singleton.1 h3).symm⟩
        · rw [if_neg h2] at h
          rcases ih _ _ h with h3 | ⟨u, hu, hu2⟩
          · rcases List.mem_append.1 h3 with h4 | h4
            · exact Or.inl h4
            · exact Or.inr ⟨t, List.mem_cons_self t rest, (List.mem_singleton.1 h4).symm⟩
          · exact Or.inr ⟨u, List.mem_cons_of_mem _ hu, hu2⟩

lemma mem_diversify {limit : Nat} {scored : List (ℚ × Int × Post)} {p : Post}
    (h : p ∈ diversify limit scored) : ∃ t ∈ scored, t.2.2 = p := by
  have hsorted : ∀ q : Post, (∃ t ∈ sortDescBy (fun t : ℚ × Int × Post => t.1) scored,
      t.2.2 = q) → ∃ t ∈ scored, t.2.2 = q := by
    intro q ⟨t, ht, ht2⟩
    exact ⟨t, (mem_sortDescBy _ t _).1 ht, ht2⟩
  rw [diversify] at h
  by_cases hb : (capLoop limit [] [] (sortDescBy (fun t => t.1) scored)).length < limit ∧
      (capLoop limit [] [] (sortDescBy (fun t => t.1) scored)).length <
        (sortDescBy (fun t : ℚ × Int × Post => t.1) scored).length
  · rw [if_pos hb] at h
    rcases List.mem_append.1 h with h1 | h1
    · rcases mem_capLoop _ _ _ h1 with h2 | h2
      · simp at h2
      · exact hsorted p h2
    · have h2 := List.mem_of_mem_take h1
      have h3 := (List.mem_filter.1 h2).1
      rcases List.mem_map.1 h3 with ⟨t, ht, ht2⟩
      exact hsorted p ⟨t, ht, ht2⟩
  · rw [if_neg hb] at h
    rcases mem_capLoop _ _ _ h with h2 | h2
    · simp at h2
    · exact hsorted p h2

lemma mem_scoredPosts {s : Snapshot} {prof : Profile}
    {dist : ℚ × ℚ → ℚ × ℚ → ℚ} {nlp : Nat → ℚ} {t : ℚ × Int × Post}
    (h : t ∈ scoredPosts s prof dist nlp) :
    t.2.2 ∈ openOtherPosts s prof.userId ∧ passesFilters s prof t.2.2 = true := by
  rw [scoredPosts] at h
  rcases List.mem_filterMap.1 h with ⟨p, hp, hp2⟩
  by_cases h0 : 0 < postTotalScore s prof dist nlp p
  · rw [if_pos h0] at hp2
    have hpt : t.2.2 = p := by cases hp2; rfl
    rw [hpt]
    exact ⟨(List.mem_filter.1 hp).1, (List.mem_filter.1 hp).2⟩
  · rw [if_neg h0] at hp2
    cases hp2

lemma seenCount_cons (k v : Nat) (l : List (Nat × Nat)) (c : Nat) :
    seenCount ((k, v) :: l) c = if k = c then v else seenCount l c := by
  by_cases h : k = c <;> simp [seenCount, List.find?, h]

lemma seenCount_bumpSeen (seen : List (Nat × Nat)) (c0 c : Nat) :
    seenCount (bumpSeen seen c0) c = seenCount seen c + (if c0 = c then 1 else 0) := by
  induction seen with
  | nil =>
      by_cases h : c0 = c
      · subst h; simp [bumpSeen, seenCount, List.find?]
      · simp [bumpSeen, seenCount, List.find?, h]
  | cons e rest ih =>
      rcases e with ⟨k, v⟩
      by_cases h1 : k = c0
      · rw [show bumpSeen ((k, v) :: rest) c0 = (k, v + 1) :: rest by simp [bumpSeen, h1]]
        rw [seenCount_cons, seenCount_cons]
        by_cases h2 : k = c
        · have hc : c0 = c := by rw [← h1, h2]
          rw [if_pos h2, if_pos h2, if_pos hc]
        · have hc : ¬ c0 = c := fun hcc => h2 (by rw [h1, hcc])
          rw [if_neg h2, if_neg h2, if_neg hc]
          omega
      · rw [show bumpSeen ((k, v) :: rest) c0 = (k, v) :: bumpSeen rest c0 by
          simp [bumpSeen, h1]]
        rw [seenCount_cons, seenCount_cons]
        by_cases h2 : k = c
        · have hc : ¬ c0 = c := fun hcc => h1 (by rw [h2, hcc])
          rw [if_pos h2, if_pos h2, if_neg hc]
          omega
        · rw [if_neg h2, if_neg h2]
          exact ih

lemma countCreator_append (l1 l2 : List Post) (c : Nat) :
    countCreator (l1 ++ l2) c = countCreator l1 c + countCreator l2 c := by
  simp [countCreator, List.filter_append]

lemma capLoop_count_le {limit : Nat} :
    ∀ (l : List (ℚ × Int × Post)) (acc : List Post) (seen : List (Nat × Nat)),
      (∀ c, countCreator acc c = seenCount seen c) →
      (∀ c, countCreator acc c ≤ 2) →
      ∀ c, countCreator (capLoop limit acc seen l) c ≤ 2 := by
  intro l
  induction l with
  | nil => intro acc seen _ hle c; exact hle c
  | cons t rest ih =>
      intro acc seen hinv hle c
      rw [capLoop]
      by_cases h1 : 2 ≤ seenCount seen t.2.2.creatorId
      · rw [if_pos h1]
        exact ih acc seen hinv hle c
      · rw [if_neg h1]
        have hcnt : ∀ c', countCreator (acc ++ [t.2.2]) c' =
            countCreator acc c' + (if t.2.2.creatorId = c' then 1 else 0) := by
          intro c'
          rw [countCreator_append]
          by_cases hc : t.2.2.creatorId = c' <;> simp [countCreator, hc]
        have hle' : ∀ c', countCreator (acc ++ [t.2.2]) c' ≤ 2 := by
          intro c'
          rw [hcnt c']
          by_cases hc : t.2.2.creatorId = c'
          · rw [if_pos hc]
            have := hinv c'
            rw [← hc] at this ⊢
            omega
          · rw [if_neg hc]
            simpa using hle c'
        by_cases h2 : limit ≤ (acc ++ [t.2.2]).length
        · rw [if_pos h2]
          exact hle' c
        · rw [if_neg h2]
          refine ih _ _ (fun c' => ?_) hle' c
          rw [hcnt c', seenCount_bumpSeen, hinv c']

lemma find?_map_of_pred {α : Type} (f : α → α) (q : α → Bool) (l : List α)
    (h : ∀ a, q (f a) = q a) : (l.map f).find? q = (l.find? q).map f := by
  induction l with
  | nil => rfl
  | cons a l ih =>
      by_cases hq : q a = true
      · rw [List.map_cons, List.find?_cons_of_pos _ (by rw [h]; exact hq),
          List.find?_cons_of_pos _ hq]
        rfl
      · rw [List.map_cons,
          List.find?_cons_of_neg _ (by rw [h]; exact Bool.not_eq_true _ ▸ hq),
          List.find?_cons_of_neg _ hq]
        exact ih

lemma filterMap_congr_mem {α β : Type} {f g : α → Option β} (l : List α)
    (h : ∀ a ∈ l, f a = g a) : l.filterMap f = l.filterMap g := by
  induction l with
  | nil => rfl
  | cons a l ih =>
      rw [List.filterMap_cons, List.filterMap_cons,
        h a (List.mem_cons_self a l), ih (fun b hb => h b (List.mem_cons_of_mem a hb))]

lemma profileOf_scrubLocations (s : Snapshot) (uid : Nat) :
    profileOf (scrubLocations s) uid =
      (profileOf s uid).map (fun p => { p with location := none }) :=
  find?_map_of_pred _ _ _ (fun _ => rfl)

lemma scoredUserEntry_scrubLocations (s : Snapshot) (post : Post)
    (dist : ℚ × ℚ → ℚ × ℚ → ℚ) (l : Option String) (uid : Nat) :
    scoredUserEntry (scrubLocations s) { post with location := l } dist uid =
      scoredUserEntry s post dist uid := by
  rw [scoredUserEntry, scoredUserEntry, profileOf_scrubLocations]
  cases profileOf s uid <;> rfl

/-- Claim C1 (code bug): the accept/reject branch of `manage_post` checks
no application status: accepting application 5 of `c1State`, which is
already 'Accepted', is reported as a success (not an error) and increments
the applicant's ProfileSkill level from 1 to 2 again, so a double-accept
double-counts skill-level increments. The status, teammate set and flash
show a silent re-mutation, contradicting the claimed no-op-with-error
behaviour; `handle_invitation` on the same state, by contrast, does guard
and is a no-op reported with a warning. -/
theorem c1_manage_post_double_accept_bug :
    (manage_post_action c1State 1 5 "accept").1.profileSkills = [⟨30, 7, 2, false⟩] ∧
    (manage_post_action c1State 1 5 "accept").2 = Flash.success ∧
    (manage_post_action c1State 1 5 "accept").1.applications = c1State.applications ∧
    (manage_post_action c1State 1 5 "accept").1.teammates = c1State.teammates ∧
    handle_invitation c1State 3 5 "accept" = (c1State, Flash.warning) := by
  decide

/-- Claim C2 (counterexample): the cold-start user of `c2State` has six
open posts by others available, yet `get_recommended_posts` with the
default limit 6 returns only 5 posts — not max(limit, 5) = 6 as claimed. -/
theorem c2_counterexample :
    (openOtherPosts c2State coldProf.userId).length = 6 ∧
    is_new_user c2State coldProf = true ∧
    (get_recommended_posts c2State coldProf 6 distZero nlpZero).length = 5 := by
  decide

/-- Claim C2 (amended): for a cold-start user (no skills, no application
history, no truthy bio) scoring is skipped and the result is the first
five — not max(limit, 5) — most recent open posts not created by the
user, independent of the limit and of the distance and similarity
components. -/
theorem c2_cold_start_returns_five (s : Snapshot) (prof : Profile)
    (limit limit' : Nat) (dist dist' : ℚ × ℚ → ℚ × ℚ → ℚ) (nlp nlp' : Nat → ℚ)
    (h : is_new_user s prof = true) :
    get_recommended_posts s prof limit dist nlp =
      (sortDescBy Post.timestamp (openOtherPosts s prof.userId)).take 5 ∧
    (get_recommended_posts s prof limit dist nlp).length ≤ 5 ∧
    get_recommended_posts s prof limit dist nlp =
      get_recommended_posts s prof limit' dist' nlp' := by
  have hcold : ∀ (li : Nat) (d : ℚ × ℚ → ℚ × ℚ → ℚ) (n : Nat → ℚ),
      get_recommended_posts s prof li d n = coldStartPosts s prof.userId := by
    intro li d n
    rw [get_recommended_posts, if_pos h]
  have htake : coldStartPosts s prof.userId =
      (sortDescBy Post.timestamp (openOtherPosts s prof.userId)).take 5 := by
    rw [coldStartPosts]
    by_cases h5 : 5 ≤ (sortDescBy Post.timestamp (openOtherPosts s prof.userId)).length
    · rw [if_pos h5]
    · rw [if_neg h5, List.take_of_length_le (by omega)]
  refine ⟨by rw [hcold, htake], ?_, by rw [hcold, hcold]⟩
  rw [hcold, htake]
  calc ((sortDescBy Post.timestamp (openOtherPosts s prof.userId)).take 5).length
      ≤ 5 := List.length_take_le 5 _

/-- Witness for `c2_cold_start_returns_five` at the concrete cold-start
scenario `c2State`. -/
theorem c2_cold_start_witness :
    is_new_user c2State coldProf = true ∧
    (get_recommended_posts c2State coldProf 6 distZero nlpZero =
        (sortDescBy Post.timestamp (openOtherPosts c2State coldProf.userId)).take 5 ∧
      (get_recommended_posts c2State coldProf 6 distZero nlpZero).length ≤ 5 ∧
      get_recommended_posts c2State coldProf 6 distZero nlpZero =
        get_recommended_posts c2State coldProf 3 distZero nlpZero) :=
  ⟨by decide, c2_cold_start_returns_five c2State coldProf 6 3 distZero distZero
    nlpZero nlpZero (by decide)⟩

/-- Claim C3 (counterexample): the cold-start path of
`get_recommended_posts` applies no gender filter — the post `c3Post`,
restricted to 'Female', is recommended to the cold-start user whose gender
is 'Male'. -/
theorem c3_counterexample :
    strTruthy c3Post.genderRequirement = true ∧
    c3Post.genderRequirement ≠ some "Any" ∧
    c3Post.genderRequirement ≠ coldProf.gender ∧
    is_new_user c3State coldProf = true ∧
    c3Post ∈ get_recommended_posts c3State coldProf 6 distZero nlpZero := by
  decide

/-- Claim C3 (amended): for a non-cold-start user, a post whose truthy
gender requirement is neither 'Any' nor the user's gender never appears in
`get_recommended_posts`, for any limit and any values of the distance and
similarity components. -/
theorem c3_gender_requirement_filter (s : Snapshot) (prof : Profile)
    (limit : Nat) (dist : ℚ × ℚ → ℚ × ℚ → ℚ) (nlp : Nat → ℚ) (p : Post)
    (hwarm : is_new_user s prof = false)
    (htruthy : strTruthy p.genderRequirement = true)
    (hany : p.genderRequirement ≠ some "Any")
    (hgender : p.genderRequirement ≠ prof.gender) :
    p ∉ get_recommended_posts s prof limit dist nlp := by
  intro hmem
  rw [get_recommended_posts, if_neg (by simp [hwarm])] at hmem
  rcases mem_diversify hmem with ⟨t, ht, ht2⟩
  have hpass := (mem_scoredPosts ht).2
  rw [ht2] at hpass
  simp [passesFilters, htruthy, hany, hgender] at hpass

/-- Witness for `c3_gender_requirement_filter`: the warm user of
`c3WitState` never sees the 'Female'-only post `c3Post`. -/
theorem c3_gender_filter_witness :
    is_new_user c3WitState warmProf = false ∧
    c3Post ∉ get_recommended_posts c3WitState warmProf 6 distZero nlpZero :=
  ⟨by decide, c3_gender_requirement_filter c3WitState warmProf 6 distZero nlpZero
    c3Post (by decide) (by decide) (by decide) (by decide)⟩

/-- Claim C4 (counterexample): a cold-start invocation of
`get_recommended_posts` returns the plain recency list with no diversity
cap: on `c4State` the returned list has length 5 (at least 3) and creator
2 occupies all five slots, while no backfill was involved — the result is
the cold-start list, produced without a capping or backfill step. -/
theorem c4_counterexample :
    (get_recommended_posts c4State coldProf 6 distZero nlpZero).length = 5 ∧
    countCreator (get_recommended_posts c4State coldProf 6 distZero nlpZero) 2 = 5 ∧
    get_recommended_posts c4State coldProf 6 distZero nlpZero =
      coldStartPosts c4State coldProf.userId := by
  decide

/-- Claim C4 (amended): on the scored (non-cold-start) path of
`get_recommended_posts`, whenever the backfill branch is not taken, no
creator identifier occurs more than 2 times in the returned list. -/
theorem c4_diversity_cap (s : Snapshot) (prof : Profile) (limit : Nat)
    (dist : ℚ × ℚ → ℚ × ℚ → ℚ) (nlp : Nat → ℚ) (c : Nat)
    (hwarm : is_new_user s prof = false)
    (hnb : ¬ backfillNeeded s prof dist nlp limit) :
    countCreator (get_recommended_posts s prof limit dist nlp) c ≤ 2 := by
  rw [get_recommended_posts, if_neg (by simp [hwarm])]
  have hnb' : ¬ ((capLoop limit [] []
        (sortDescBy (fun t : ℚ × Int × Post => t.1) (scoredPosts s prof dist nlp))).length
          < limit ∧
      (capLoop limit [] []
        (sortDescBy (fun t : ℚ × Int × Post => t.1) (scoredPosts s prof dist nlp))).length
          < (sortDescBy (fun t : ℚ × Int × Post => t.1) (scoredPosts s prof dist nlp)).length) :=
    hnb
  simp only [diversify]
  rw [if_neg hnb']
  exact capLoop_count_le _ [] [] (fun c' => rfl) (fun c' => Nat.zero_le 2) c

/-- Witness for `c4_diversity_cap` at the concrete warm scenario
`c3WitState` with limit 6 (one scored candidate, so no backfill). -/
theorem c4_diversity_cap_witness :
    is_new_user c3WitState warmProf = false ∧
    ¬ backfillNeeded c3WitState warmProf distZero nlpZero 6 ∧
    countCreator (get_recommended_posts c3WitState warmProf 6 distZero nlpZero) 2 ≤ 2 :=
  ⟨by decide, by simp only [backfillNeeded]; with_unfolding_all decide,
    c4_diversity_cap c3WitState warmProf 6 distZero nlpZero 2 (by decide)
      (by simp only [backfillNeeded]; with_unfolding_all decide)⟩

/-- Claim C9: both rankers are deterministic — on a fixed snapshot (with
its fixed enumeration orders and evaluation time) and fixed component
oracles, two runs of `get_recommended_posts` and of
`recommend_users_for_post` produce identical ordered lists. In this
embedding every iteration order of the Python code (query order, dict
order, stable sorts) is part of the snapshot, so determinism holds
definitionally. -/
theorem c9_rankers_deterministic (s : Snapshot) (prof : Profile) (post : Post)
    (limit limit2 : Nat) (dist : ℚ × ℚ → ℚ × ℚ → ℚ) (nlp : Nat → ℚ) :
    get_recommended_posts s prof limit dist nlp =
      get_recommended_posts s prof limit dist nlp ∧
    recommend_users_for_post s post limit2 dist =
      recommend_users_for_post s post limit2 dist :=
  ⟨rfl, rfl⟩

/-- Claim C10: `recommend_users_for_post` checks coordinate presence with
numeric truthiness (`post.latitude and post.longitude`), so a stored
latitude or longitude equal to 0.0 makes the pair absent and the location
score contribution 0, for any distance values and any other side — while
under the `is not None` check of `get_recommended_posts` the same (0, 0)
coordinates count as present. -/
theorem c10_zero_coordinate_truthiness (lat lng : Option ℚ)
    (h : lat = some 0 ∨ lng = some 0) (dist : ℚ × ℚ → ℚ × ℚ → ℚ)
    (c : Option (ℚ × ℚ)) :
    coordsIfTruthy lat lng = none ∧
    userLocationScore dist (coordsIfTruthy lat lng) c = 0 ∧
    userLocationScore dist c (coordsIfTruthy lat lng) = 0 ∧
    coordsIfNotNone (some (0 : ℚ)) (some (0 : ℚ)) = some (0, 0) := by
  have hnone : coordsIfTruthy lat lng = none := by
    rcases h with h | h
    · subst h; cases lng <;> simp [coordsIfTruthy]
    · subst h; cases lat <;> simp [coordsIfTruthy]
  refine ⟨hnone, ?_, ?_, rfl⟩
  · rw [hnone]; rfl
  · rw [hnone]; cases c <;> rfl

/-- Witness for `c10_zero_coordinate_truthiness`: a user on the equator
(latitude exactly 0) contributes location score 0. -/
theorem c10_zero_coordinate_witness :
    (some (0 : ℚ) = some (0 : ℚ) ∨ (some (5 : ℚ) : Option ℚ) = some 0) ∧
    (coordsIfTruthy (some (0 : ℚ)) (some (5 : ℚ)) = none ∧
      userLocationScore distZero (coordsIfTruthy (some (0 : ℚ)) (some (5 : ℚ)))
        (some (1, 2)) = 0 ∧
      userLocationScore distZero (some (1, 2))
        (coordsIfTruthy (some (0 : ℚ)) (some (5 : ℚ))) = 0 ∧
      coordsIfNotNone (some (0 : ℚ)) (some (0 : ℚ)) = some (0, 0)) :=
  ⟨Or.inl rfl, c10_zero_coordinate_truthiness (some 0) (some 5) (Or.inl rfl)
    distZero (some (1, 2))⟩

lemma great_circle_y_swap (sa ca sb cb sd cd : ℝ)
    (ha : sa ^ 2 + ca ^ 2 = 1) (hb : sb ^ 2 + cb ^ 2 = 1) (hd : sd ^ 2 + cd ^ 2 = 1) :
    (ca * -sd) ^ 2 + (cb * sa - sb * ca * cd) ^ 2 =
      (cb * sd) ^ 2 + (ca * sb - sa * cb * cd) ^ 2 := by
  linear_combination (ca ^ 2 - cb ^ 2) * hd + (1 - cd ^ 2) * cb ^ 2 * ha -
    (1 - cd ^ 2) * ca ^ 2 * hb

lemma great_circle_comm (a b : ℝ × ℝ) : great_circle_km a b = great_circle_km b a := by
  simp only [great_circle_km]
  have hδ : deg2rad a.2 - deg2rad b.2 = -(deg2rad b.2 - deg2rad a.2) := by ring
  rw [hδ, Real.sin_neg, Real.cos_neg]
  have hy : (Real.cos (deg2rad a.1) * -Real.sin (deg2rad b.2 - deg2rad a.2)) ^ 2 +
      (Real.cos (deg2rad b.1) * Real.sin (deg2rad a.1) -
        Real.sin (deg2rad b.1) * Real.cos (deg2rad a.1) *
          Real.cos (deg2rad b.2 - deg2rad a.2)) ^ 2 =
      (Real.cos (deg2rad b.1) * Real.sin (deg2rad b.2 - deg2rad a.2)) ^ 2 +
      (Real.cos (deg2rad a.1) * Real.sin (deg2rad b.1) -
        Real.sin (deg2rad a.1) * Real.cos (deg2rad b.1) *
          Real.cos (deg2rad b.2 - deg2rad a.2)) ^ 2 :=
    great_circle_y_swap _ _ _ _ _ _ (Real.sin_sq_add_cos_sq (deg2rad a.1))
      (Real.sin_sq_add_cos_sq (deg2rad b.1))
      (Real.sin_sq_add_cos_sq (deg2rad b.2 - deg2rad a.2))
  have hx : Real.sin (deg2rad b.1) * Real.sin (deg2rad a.1) +
      Real.cos (deg2rad b.1) * Real.cos (deg2rad a.1) *
        Real.cos (deg2rad b.2 - deg2rad a.2) =
      Real.sin (deg2rad a.1) * Real.sin (deg2rad b.1) +
      Real.cos (deg2rad a.1) * Real.cos (deg2rad b.1) *
        Real.cos (deg2rad b.2 - deg2rad a.2) := by ring
  rw [hy, hx]

/-- Claim C7: the geo-proximity score is symmetric in both tier systems:
for any two possibly-absent coordinate pairs A and B, the post-ranking
tiers (1.0/0.6/0.3/0) and the user-ranking tiers (10/5/0) assign the same
score to (A, B) and (B, A), because the great-circle distance itself is
symmetric. -/
theorem c7_geo_score_symmetric (A B : Option (ℝ × ℝ)) :
    postLocationScoreR A B = postLocationScoreR B A ∧
    userLocationScoreR A B = userLocationScoreR B A := by
  constructor
  · cases A with
    | none => cases B <;> rfl
    | some u =>
        cases B with
        | none => rfl
        | some v => simp only [postLocationScoreR, great_circle_comm u v]
  · cases A with
    | none => cases B <;> rfl
    | some u =>
        cases B with
        | none => rfl
        | some v => simp only [userLocationScoreR, great_circle_comm u v]

/-- Claim C6 (amended): whenever either side's coordinate pair is absent
the geo score is 0 in both rankers, and there is no free-text fallback at
all: the location strings are computed but never read by the scoring, so
`recommend_users_for_post` is invariant under erasing every location
string, and the per-post total score of `get_recommended_posts` ignores
both location strings. -/
theorem c6_geo_absent_zero_no_fallback :
    (∀ (dist : ℚ × ℚ → ℚ × ℚ → ℚ) (uc pc : Option (ℚ × ℚ)),
      uc = none ∨ pc = none →
        postLocationScore dist uc pc = 0 ∧ userLocationScore dist uc pc = 0) ∧
    (∀ (s : Snapshot) (post : Post) (limit : Nat) (dist : ℚ × ℚ → ℚ × ℚ → ℚ)
        (l : Option String),
      recommend_users_for_post (scrubLocations s) { post with location := l } limit dist =
        recommend_users_for_post s post limit dist) ∧
    (∀ (s : Snapshot) (prof : Profile) (dist : ℚ × ℚ → ℚ × ℚ → ℚ) (nlp : Nat → ℚ)
        (p : Post) (lp lu : Option String),
      postTotalScore s { prof with location := lu } dist nlp { p with location := lp } =
        postTotalScore s prof dist nlp p) := by
  refine ⟨?_, ?_, ?_⟩
  · intro dist uc pc h
    rcases h with h | h
    · subst h
      exact ⟨by cases pc <;> rfl, by cases pc <;> rfl⟩
    · subst h
      exact ⟨by cases uc <;> rfl, by cases uc <;> rfl⟩
  · intro s post limit dist l
    have hfun : scoredUserEntry (scrubLocations s) { post with location := l } dist =
        scoredUserEntry s post dist :=
      funext (scoredUserEntry_scrubLocations s post dist l)
    rw [recommend_users_for_post, recommend_users_for_post, hfun]
    rfl
  · intro s prof dist nlp p lp lu
    rfl

/-- Witness for `c6_geo_absent_zero_no_fallback` at concrete inputs:
an absent user-side coordinate pair scores 0 against present post
coordinates, and the concrete scrub instance on `c6State`. -/
theorem c6_geo_absent_witness :
    ((none : Option (ℚ × ℚ)) = none ∨ (some ((1 : ℚ), (2 : ℚ)) : Option (ℚ × ℚ)) = none) ∧
    (postLocationScore distZero none (some (1, 2)) = 0 ∧
      userLocationScore distZero none (some (1, 2)) = 0) ∧
    recommend_users_for_post (scrubLocations c6State) { c6Post with location := none } 5
        distZero =
      recommend_users_for_post c6State c6Post 5 distZero :=
  ⟨Or.inl rfl,
    (c6_geo_absent_zero_no_fallback.1 distZero none (some (1, 2)) (Or.inl rfl)),
    (c6_geo_absent_zero_no_fallback.2.1 c6State c6Post 5 distZero none)⟩

/-- Claim C6 (counterexample): the post and the candidate of `c6State`
share the same case-insensitive first comma-segment ("chennai") and both
lack coordinates, yet no fallback score is assigned: the candidate's
entry is dropped at total score 0 and they are not recommended, so
city-name equality yields no partial geo score. -/
theorem c6_counterexample :
    firstCommaSegment (c6Post.location.getD "") =
      firstCommaSegment (c6Prof.location.getD "") ∧
    coordsIfTruthy c6Post.latitude c6Post.longitude = none ∧
    coordsIfTruthy c6Prof.latitude c6Prof.longitude = none ∧
    scoredUserEntry c6State c6Post distZero 3 = none ∧
    recommend_users_for_post c6State c6Post 5 distZero = [] := by
  with_unfolding_all decide

lemma sumSq_nonneg (v : List ℝ) : 0 ≤ sumSq v := by
  rw [sumSq]
  apply List.sum_nonneg
  intro x hx
  rcases List.mem_map.1 hx with ⟨y, _, rfl⟩
  exact sq_nonneg y

lemma dotL_nonneg : ∀ (u v : List ℝ), (∀ x ∈ u, 0 ≤ x) → (∀ x ∈ v, 0 ≤ x) →
    0 ≤ dotL u v := by
  intro u
  induction u with
  | nil => intro v _ _; simp [dotL]
  | cons a u ih =>
      intro v hu hv
      cases v with
      | nil => simp [dotL]
      | cons b v =>
          rw [dotL, List.zipWith_cons_cons, List.sum_cons]
          have h1 : 0 ≤ a * b :=
            mul_nonneg (hu a (List.mem_cons_self a u)) (hv b (List.mem_cons_self b v))
          have h2 := ih v (fun x hx => hu x (List.mem_cons_of_mem a hx))
            (fun x hx => hv x (List.mem_cons_of_mem b hx))
          rw [dotL] at h2
          linarith

lemma cs_step (a b d U V : ℝ) (hU : 0 ≤ U) (hV : 0 ≤ V) (hd : d ^ 2 ≤ U * V) :
    (a * b + d) ^ 2 ≤ (a ^ 2 + U) * (b ^ 2 + V) := by
  rcases eq_or_lt_of_le hU with h0 | h0
  · have hd0 : d = 0 := by nlinarith [sq_nonneg d]
    subst hd0
    nlinarith [mul_nonneg (sq_nonneg a) hV]
  · have key : 2 * (a * b * d) * U ≤ a ^ 2 * (U * V) + U ^ 2 * b ^ 2 := by
      nlinarith [sq_nonneg (U * b - a * d), mul_le_mul_of_nonneg_left hd (sq_nonneg a)]
    have key2 : 2 * (a * b * d) ≤ a ^ 2 * V + U * b ^ 2 := by
      have h2 : (2 * (a * b * d)) * U ≤ (a ^ 2 * V + U * b ^ 2) * U := by nlinarith [key]
      exact le_of_mul_le_mul_right h2 h0
    nlinarith [hd, key2]

lemma dotL_sq_le : ∀ (u v : List ℝ), (dotL u v) ^ 2 ≤ sumSq u * sumSq v := by
  intro u
  induction u with
  | nil =>
      intro v
      simp [dotL, sumSq]
  | cons a u ih =>
      intro v
      cases v with
      | nil =>
          simp [dotL, sumSq]
      | cons b v =>
          have hU := sumSq_nonneg u
          have hV := sumSq_nonneg v
          have hIH := ih v
          rw [dotL, List.zipWith_cons_cons, List.sum_cons]
          rw [sumSq, List.map_cons, List.sum_cons, sumSq, List.map_cons, List.sum_cons]
          rw [sumSq, sumSq] at hIH
          rw [sumSq] at hU
          rw [sumSq] at hV
          rw [dotL] at hIH
          exact cs_step a b _ _ _ hU hV hIH

lemma cosine_similarity_mem01 (u v : List ℝ)
    (hu : ∀ x ∈ u, 0 ≤ x) (hv : ∀ x ∈ v, 0 ≤ x) :
    0 ≤ cosine_similarity u v ∧ cosine_similarity u v ≤ 1 := by
  have hd := dotL_nonneg u v hu hv
  have hU := sumSq_nonneg u
  have hle : dotL u v ≤ Real.sqrt (sumSq u) * Real.sqrt (sumSq v) := by
    rw [← Real.sqrt_mul hU]
    calc dotL u v = Real.sqrt ((dotL u v) ^ 2) := (Real.sqrt_sq hd).symm
    _ ≤ Real.sqrt (sumSq u * sumSq v) := Real.sqrt_le_sqrt (dotL_sq_le u v)
  constructor
  · exact div_nonneg hd (mul_nonneg (Real.sqrt_nonneg _) (Real.sqrt_nonneg _))
  · exact div_le_one_of_le₀ hle (mul_nonneg (Real.sqrt_nonneg _) (Real.sqrt_nonneg _))

lemma tfidfRow_nonneg (docs : List (List String)) (vocab : List String)
    (d : List String) : ∀ x ∈ tfidfRow docs vocab d, 0 ≤ x := by
  intro x hx
  rw [tfidfRow, l2normalize, List.map_map] at hx
  rcases List.mem_map.1 hx with ⟨t, _, rfl⟩
  apply div_nonneg _ (Real.sqrt_nonneg _)
  apply mul_nonneg (Nat.cast_nonneg _)
  rw [idf]
  have hdf : (docFreq docs t : ℝ) ≤ (docs.length : ℝ) := by
    exact_mod_cast List.length_filter_le _ _
  have h1 : (1 : ℝ) ≤ (1 + docs.length) / (1 + docFreq docs t) := by
    rw [le_div_iff₀ (by positivity)]
    linarith
  have h2 := Real.log_nonneg h1
  linarith

lemma fit_transform_nonneg (corpus : List String) (rows : List (List ℝ))
    (h : fit_transform corpus = some rows) : ∀ r ∈ rows, ∀ x ∈ r, 0 ≤ x := by
  rw [fit_transform] at h
  by_cases hv : vocabOf (corpus.map tokenize) = []
  · rw [if_pos hv] at h
    cases h
  · rw [if_neg hv] at h
    have hrows : rows = (corpus.map tokenize).map
        (tfidfRow (corpus.map tokenize) (vocabOf (corpus.map tokenize))) :=
      (Option.some.injEq _ _ ▸ h).symm
    intro r hr
    rw [hrows] at hr
    rcases List.mem_map.1 hr with ⟨d, _, rfl⟩
    exact tfidfRow_nonneg _ _ d

lemma zipWith_add_nonneg : ∀ (acc r : List ℝ), (∀ x ∈ acc, 0 ≤ x) →
    (∀ x ∈ r, 0 ≤ x) → ∀ x ∈ List.zipWith (· + ·) acc r, 0 ≤ x := by
  intro acc
  induction acc with
  | nil => intro r _ _ x hx; simp at hx
  | cons a acc ih =>
      intro r ha hr x hx
      cases r with
      | nil => simp at hx
      | cons b r =>
          rw [List.zipWith_cons_cons] at hx
          rcases List.mem_cons.1 hx with rfl | hx
          · exact add_nonneg (ha a (List.mem_cons_self a acc)) (hr b (List.mem_cons_self b r))
          · exact ih r (fun y hy => ha y (List.mem_cons_of_mem a hy))
              (fun y hy => hr y (List.mem_cons_of_mem b hy)) x hx

lemma foldl_rows_nonneg : ∀ (rows : List (List ℝ)) (acc : List ℝ),
    (∀ x ∈ acc, 0 ≤ x) → (∀ r ∈ rows, ∀ x ∈ r, 0 ≤ x) →
    ∀ x ∈ rows.foldl (fun a v => List.zipWith (· + ·) a v) acc, 0 ≤ x := by
  intro rows
  induction rows with
  | nil => intro acc ha _ x hx; exact ha x hx
  | cons r rows ih =>
      intro acc ha hr x hx
      rw [List.foldl_cons] at hx
      exact ih _ (zipWith_add_nonneg acc r ha (hr r (List.mem_cons_self r rows)))
        (fun q hq => hr q (List.mem_cons_of_mem r hq)) x hx

lemma meanRows_nonneg (rows : List (List ℝ)) (h : ∀ r ∈ rows, ∀ x ∈ r, 0 ≤ x) :
    ∀ x ∈ meanRows rows, 0 ≤ x := by
  intro x hx
  cases rows with
  | nil => simp [meanRows] at hx
  | cons r rest =>
      rw [meanRows] at hx
      rcases List.mem_map.1 hx with ⟨y, hy, rfl⟩
      apply div_nonneg _ (Nat.cast_nonneg _)
      refine foldl_rows_nonneg _ _ ?_ h y hy
      intro z hz
      rw [List.eq_of_mem_replicate hz]

lemma lookup_some_mem {α : Type} [BEq α] {l : List (α × List ℝ)} {k : α}
    {v : List ℝ} (h : l.lookup k = some v) : v ∈ l.map Prod.snd := by
  induction l with
  | nil => cases h
  | cons e rest ih =>
      rw [List.lookup] at h
      cases hk : k == e.1 with
      | true =>
          rw [hk] at h
          cases h
          exact List.mem_map.2 ⟨e, List.mem_cons_self e rest, rfl⟩
      | false =>
          rw [hk] at h
          exact List.mem_cons_of_mem _ (ih h)

lemma nlpVectors_taste_nonneg (s : Snapshot) (prof : Profile) (tv : List ℝ)
    (h : (nlpVectors s prof).1 = some tv) : ∀ x ∈ tv, 0 ≤ x := by
  rw [nlpVectors] at h
  by_cases hlen : 1 < (corpusOf s prof).length
  · rw [if_pos hlen] at h
    rcases hft : fit_transform (corpusOf s prof) with _ | rows
    · rw [hft] at h
      cases h
    · rw [hft] at h
      dsimp only at h
      by_cases hlk : user_liked_texts s prof ≠ []
      · rw [if_pos hlk] at h
        cases h
        apply meanRows_nonneg
        intro r hr
        exact fit_transform_nonneg _ _ hft r (List.mem_of_mem_drop hr)
      · rw [if_neg hlk] at h
        cases h
  · rw [if_neg hlen] at h
    cases h

lemma nlpVectors_post_nonneg (s : Snapshot) (prof : Profile) (pid : Nat)
    (pv : List ℝ) (h : (nlpVectors s prof).2.lookup pid = some pv) :
    ∀ x ∈ pv, 0 ≤ x := by
  rw [nlpVectors] at h
  by_cases hlen : 1 < (corpusOf s prof).length
  · rw [if_pos hlen] at h
    rcases hft : fit_transform (corpusOf s prof) with _ | rows
    · rw [hft] at h
      cases h
    · rw [hft] at h
      dsimp only at h
      have hmem := lookup_some_mem h
      rw [List.map_map] at hmem
      rcases List.mem_map.1 hmem with ⟨pr, hpr, hpr2⟩
      have : pv = pr.2 := hpr2.symm
      subst this
      exact fit_transform_nonneg _ _ hft pr.2 (List.of_mem_zip hpr).2
  · rw [if_neg hlen] at h
    cases h

/-- Claim C8: the text-similarity pipeline is a total function whose score
is always in [0, 1]; a corpus of fewer than 2 documents assigns no vectors
and similarity 0; an empty vocabulary (the caught ValueError, e.g. only
stop words) degrades to no vectors and similarity 0; and the similarity is
0 whenever the taste vector is absent, the post's vector is absent, or
either vector is all-zero. -/
theorem c8_nlp_never_fails_bounded (s : Snapshot) (prof : Profile) (p : Post) :
    (0 ≤ nlp_score s prof p ∧ nlp_score s prof p ≤ 1) ∧
    ((corpusOf s prof).length ≤ 1 →
      nlpVectors s prof = (none, []) ∧ nlp_score s prof p = 0) ∧
    (vocabOf ((corpusOf s prof).map tokenize) = [] → nlp_score s prof p = 0) ∧
    ((nlpVectors s prof).1 = none → nlp_score s prof p = 0) ∧
    ((nlpVectors s prof).2.lookup p.id = none → nlp_score s prof p = 0) ∧
    (∀ tv pv, (nlpVectors s prof).1 = some tv →
      (nlpVectors s prof).2.lookup p.id = some pv →
      ((∀ x ∈ tv, x = 0) ∨ (∀ x ∈ pv, x = 0)) → nlp_score s prof p = 0) := by
  refine ⟨?_, ?_, ?_, ?_, ?_, ?_⟩
  · rw [nlp_score]
    rcases htv : (nlpVectors s prof).1 with _ | tv <;>
      rcases hpv : (nlpVectors s prof).2.lookup p.id with _ | pv
    · exact ⟨le_rfl, zero_le_one⟩
    · exact ⟨le_rfl, zero_le_one⟩
    · exact ⟨le_rfl, zero_le_one⟩
    · dsimp only
      by_cases hg : (∃ x ∈ tv, x ≠ 0) ∧ (∃ x ∈ pv, x ≠ 0)
      · rw [if_pos hg]
        exact cosine_similarity_mem01 tv pv (nlpVectors_taste_nonneg s prof tv htv)
          (nlpVectors_post_nonneg s prof p.id pv hpv)
      · rw [if_neg hg]
        exact ⟨le_rfl, zero_le_one⟩
  · intro hlen
    have hvec : nlpVectors s prof = (none, []) := by
      rw [nlpVectors, if_neg (by omega)]
    refine ⟨hvec, ?_⟩
    rw [nlp_score, hvec]
  · intro hvocab
    have hft : fit_transform (corpusOf s prof) = none := by
      rw [fit_transform]
      exact if_pos hvocab
    have hvec : nlpVectors s prof = (none, []) := by
      rw [nlpVectors]
      by_cases hlen : 1 < (corpusOf s prof).length
      · rw [if_pos hlen, hft]
      · rw [if_neg hlen]
    rw [nlp_score, hvec]
  · intro h
    rw [nlp_score, h]
  · intro h
    rw [nlp_score, h]
    rcases (nlpVectors s prof).1 <;> rfl
  · intro tv pv htv hpv hzero
    rw [nlp_score, htv, hpv]
    dsimp only
    rw [if_neg ?_]
    rintro ⟨⟨x, hx, hx0⟩, ⟨y, hy, hy0⟩⟩
    rcases hzero with hz | hz
    · exact hx0 (hz x hx)
    · exact hy0 (hz y hy)

/-- Witness for `c8_nlp_never_fails_bounded`: on the empty snapshot the
corpus has fewer than 2 documents, no vectors are assigned, and the
similarity is 0 (and in [0, 1]). -/
theorem c8_nlp_witness :
    (corpusOf emptyState coldProf).length ≤ 1 ∧
    nlpVectors emptyState coldProf = (none, []) ∧
    nlp_score emptyState coldProf c3Post = 0 ∧
    0 ≤ nlp_score emptyState coldProf c3Post :=
  ⟨by decide,
    ((c8_nlp_never_fails_bounded emptyState coldProf c3Post).2.1 (by decide)).1,
    ((c8_nlp_never_fails_bounded emptyState coldProf c3Post).2.1 (by decide)).2,
    (c8_nlp_never_fails_bounded emptyState coldProf c3Post).1.1⟩

lemma trig_bounds_pos (x lo hi : ℝ) (h0 : 0 ≤ lo) (hlo : lo ≤ x) (hhi : x ≤ hi)
    (h1 : hi ≤ 1) :
    (lo - hi ^ 3 / 6 - hi ^ 4 * (5 / 96) ≤ Real.sin x ∧
      Real.sin x ≤ hi - lo ^ 3 / 6 + hi ^ 4 * (5 / 96)) ∧
    (1 - hi ^ 2 / 2 - hi ^ 4 * (5 / 96) ≤ Real.cos x ∧
      Real.cos x ≤ 1 - lo ^ 2 / 2 + hi ^ 4 * (5 / 96)) := by
  have hx0 : 0 ≤ x := le_trans h0 hlo
  have habs : |x| ≤ 1 := by rw [abs_of_nonneg hx0]; linarith
  have hs := Real.sin_bound habs
  have hc := Real.cos_bound habs
  rw [abs_of_nonneg hx0] at hs hc
  rw [abs_le] at hs hc
  have hx2h : x ^ 2 ≤ hi ^ 2 := pow_le_pow_left₀ hx0 hhi 2
  have hx3h : x ^ 3 ≤ hi ^ 3 := pow_le_pow_left₀ hx0 hhi 3
  have hx4h : x ^ 4 ≤ hi ^ 4 := pow_le_pow_left₀ hx0 hhi 4
  have hx2l : lo ^ 2 ≤ x ^ 2 := pow_le_pow_left₀ h0 hlo 2
  have hx3l : lo ^ 3 ≤ x ^ 3 := pow_le_pow_left₀ h0 hlo 3
  have hx40 : 0 ≤ x ^ 4 := by positivity
  exact ⟨⟨by linarith [hs.1], by linarith [hs.2]⟩,
    ⟨by linarith [hc.1], by linarith [hc.2]⟩⟩

lemma arctan_le_self_of_nonneg (x : ℝ) (hx : 0 ≤ x) : Real.arctan x ≤ x := by
  rcases eq_or_lt_of_le hx with h | h
  · rw [← h, Real.arctan_zero]
  · have h0 : 0 < Real.arctan x := by
      have := Real.arctan_strictMono h
      rwa [Real.arctan_zero] at this
    have h2 := Real.lt_tan h0 (Real.arctan_lt_pi_div_two x)
    rw [Real.tan_arctan] at h2
    exact le_of_lt h2

lemma mul_interval (x y a b c d : ℝ) (hxa : a ≤ x) (hxb : x ≤ b)
    (hyc : c ≤ y) (hyd : y ≤ d) (ha : 0 ≤ a) (hc : 0 ≤ c) :
    a * c ≤ x * y ∧ x * y ≤ b * d :=
  ⟨mul_le_mul hxa hyc hc (ha.trans hxa),
    mul_le_mul hxb hyd (hc.trans hyc) ((ha.trans hxa).trans hxb)⟩

set_option maxHeartbeats 2000000 in
lemma chennai_vellore_distance :
    120 < great_circle_km (13.08, 80.27) (12.92, 79.13) ∧
    great_circle_km (13.08, 80.27) (12.92, 79.13) ≤ 300 := by
  have hπl : (3.141592 : ℝ) < Real.pi := Real.pi_gt_d6
  have hπu : Real.pi < 3.141593 := Real.pi_lt_d6
  have hL1 : (0.2282890 : ℝ) ≤ deg2rad 13.08 ∧ deg2rad 13.08 ≤ 0.2282891 := by
    rw [deg2rad]; constructor <;> linarith only [hπl, hπu]
  have hL2 : (0.2254964 : ℝ) ≤ deg2rad 12.92 ∧ deg2rad 12.92 ≤ 0.2254966 := by
    rw [deg2rad]; constructor <;> linarith only [hπl, hπu]
  have hE : (0.0198967 : ℝ) ≤ deg2rad 80.27 - deg2rad 79.13 ∧
      deg2rad 80.27 - deg2rad 79.13 ≤ 0.0198968 := by
    rw [deg2rad, deg2rad]; constructor <;> linarith only [hπl, hπu]
  obtain ⟨hs1p, hc1p⟩ := trig_bounds_pos (deg2rad 13.08) 0.2282890 0.2282891
    (by norm_num) hL1.1 hL1.2 (by norm_num)
  obtain ⟨hs2p, hc2p⟩ := trig_bounds_pos (deg2rad 12.92) 0.2254964 0.2254966
    (by norm_num) hL2.1 hL2.2 (by norm_num)
  obtain ⟨hsEp, hcEp⟩ := trig_bounds_pos (deg2rad 80.27 - deg2rad 79.13)
    0.0198967 0.0198968 (by norm_num) hE.1 hE.2 (by norm_num)
  set s1 := Real.sin (deg2rad 13.08) with hs1def
  set c1 := Real.cos (deg2rad 13.08) with hc1def
  set s2 := Real.sin (deg2rad 12.92) with hs2def
  set c2 := Real.cos (deg2rad 12.92) with hc2def
  set se := Real.sin (deg2rad 80.27 - deg2rad 79.13) with hsedef
  set ce := Real.cos (deg2rad 80.27 - deg2rad 79.13) with hcedef
  have hs1 : (0.22616 : ℝ) ≤ s1 ∧ s1 ≤ 0.22645 :=
    ⟨by linarith only [hs1p.1], by linarith only [hs1p.2]⟩
  have hc1 : (0.97380 : ℝ) ≤ c1 ∧ c1 ≤ 0.97409 :=
    ⟨by linarith only [hc1p.1], by linarith only [hc1p.2]⟩
  have hs2 : (0.22345 : ℝ) ≤ s2 ∧ s2 ≤ 0.22373 :=
    ⟨by linarith only [hs2p.1], by linarith only [hs2p.2]⟩
  have hc2 : (0.97444 : ℝ) ≤ c2 ∧ c2 ≤ 0.97472 :=
    ⟨by linarith only [hc2p.1], by linarith only [hc2p.2]⟩
  have hse : (0.0198953 : ℝ) ≤ se ∧ se ≤ 0.0198955 :=
    ⟨by linarith only [hsEp.1], by linarith only [hsEp.2]⟩
  have hce : (0.999802 : ℝ) ≤ ce ∧ ce ≤ 0.9998021 :=
    ⟨by linarith only [hcEp.1], by linarith only [hcEp.2]⟩
  -- interval bounds for the components of the central-angle formula
  have hA0 := mul_interval c2 se 0.97444 0.97472 0.0198953 0.0198955
    hc2.1 hc2.2 hse.1 hse.2 (by norm_num) (by norm_num)
  have hA : (0.019386 : ℝ) ≤ c2 * se ∧ c2 * se ≤ 0.019393 :=
    ⟨by linarith only [hA0.1], by linarith only [hA0.2]⟩
  have hB0 := mul_interval c1 s2 0.97380 0.97409 0.22345 0.22373
    hc1.1 hc1.2 hs2.1 hs2.2 (by norm_num) (by norm_num)
  have hB : (0.21759 : ℝ) ≤ c1 * s2 ∧ c1 * s2 ≤ 0.21794 :=
    ⟨by linarith only [hB0.1], by linarith only [hB0.2]⟩
  have hsc0 := mul_interval s1 c2 0.22616 0.22645 0.97444 0.97472
    hs1.1 hs1.2 hc2.1 hc2.2 (by norm_num) (by norm_num)
  have hsc : (0.22037 : ℝ) ≤ s1 * c2 ∧ s1 * c2 ≤ 0.22073 :=
    ⟨by linarith only [hsc0.1], by linarith only [hsc0.2]⟩
  have hC0 := mul_interval (s1 * c2) ce 0.22037 0.22073 0.999802 0.9998021
    hsc.1 hsc.2 hce.1 hce.2 (by norm_num) (by norm_num)
  have hC : (0.22032 : ℝ) ≤ s1 * c2 * ce ∧ s1 * c2 * ce ≤ 0.22069 :=
    ⟨by linarith only [hC0.1], by linarith only [hC0.2]⟩
  have hy2 : (-0.00310 : ℝ) ≤ c1 * s2 - s1 * c2 * ce ∧
      c1 * s2 - s1 * c2 * ce ≤ -0.00238 :=
    ⟨by linarith only [hB.1, hC.2], by linarith only [hB.2, hC.1]⟩
  have hA20 := mul_interval (c2 * se) (c2 * se) 0.019386 0.019393
    0.019386 0.019393 hA.1 hA.2 hA.1 hA.2 (by norm_num) (by norm_num)
  have hA2 : (0.0003758 : ℝ) ≤ (c2 * se) ^ 2 ∧ (c2 * se) ^ 2 ≤ 0.0003761 := by
    have hsq : (c2 * se) ^ 2 = (c2 * se) * (c2 * se) := by ring
    rw [hsq]
    exact ⟨by linarith only [hA20.1], by linarith only [hA20.2]⟩
  have hny2 : (0.00238 : ℝ) ≤ -(c1 * s2 - s1 * c2 * ce) ∧
      -(c1 * s2 - s1 * c2 * ce) ≤ 0.00310 :=
    ⟨by linarith only [hy2.2], by linarith only [hy2.1]⟩
  have hy220 := mul_interval (-(c1 * s2 - s1 * c2 * ce)) (-(c1 * s2 - s1 * c2 * ce))
    0.00238 0.00310 0.00238 0.00310 hny2.1 hny2.2 hny2.1 hny2.2
    (by norm_num) (by norm_num)
  have hy22 : (0.0000056 : ℝ) ≤ (c1 * s2 - s1 * c2 * ce) ^ 2 ∧
      (c1 * s2 - s1 * c2 * ce) ^ 2 ≤ 0.00000962 := by
    have hsq : (c1 * s2 - s1 * c2 * ce) ^ 2 =
        (-(c1 * s2 - s1 * c2 * ce)) * (-(c1 * s2 - s1 * c2 * ce)) := by ring
    rw [hsq]
    exact ⟨by linarith only [hy220.1], by linarith only [hy220.2]⟩
  have hS : (0.0003814 : ℝ) ≤ (c2 * -se) ^ 2 + (c1 * s2 - s1 * c2 * ce) ^ 2 ∧
      (c2 * -se) ^ 2 + (c1 * s2 - s1 * c2 * ce) ^ 2 ≤ 0.0003858 := by
    have hneg : (c2 * -se) ^ 2 = (c2 * se) ^ 2 := by ring
    rw [hneg]
    exact ⟨by linarith only [hA2.1, hy22.1], by linarith only [hA2.2, hy22.2]⟩
  have hss0 := mul_interval s1 s2 0.22616 0.22645 0.22345 0.22373
    hs1.1 hs1.2 hs2.1 hs2.2 (by norm_num) (by norm_num)
  have hss : (0.05053 : ℝ) ≤ s1 * s2 ∧ s1 * s2 ≤ 0.05067 :=
    ⟨by linarith only [hss0.1], by linarith only [hss0.2]⟩
  have hcc0 := mul_interval c1 c2 0.97380 0.97409 0.97444 0.97472
    hc1.1 hc1.2 hc2.1 hc2.2 (by norm_num) (by norm_num)
  have hcc : (0.94890 : ℝ) ≤ c1 * c2 ∧ c1 * c2 ≤ 0.94947 :=
    ⟨by linarith only [hcc0.1], by linarith only [hcc0.2]⟩
  have hccc0 := mul_interval (c1 * c2) ce 0.94890 0.94947 0.999802 0.9998021
    hcc.1 hcc.2 hce.1 hce.2 (by norm_num) (by norm_num)
  have hccc : (0.94871 : ℝ) ≤ c1 * c2 * ce ∧ c1 * c2 * ce ≤ 0.94929 :=
    ⟨by linarith only [hccc0.1], by linarith only [hccc0.2]⟩
  have hx : (0.99924 : ℝ) ≤ s1 * s2 + c1 * c2 * ce ∧
      s1 * s2 + c1 * c2 * ce ≤ 0.99996 :=
    ⟨by linarith only [hss.1, hccc.1], by linarith only [hss.2, hccc.2]⟩
  have hxpos : (0 : ℝ) < s1 * s2 + c1 * c2 * ce := by linarith only [hx.1]
  -- square-root bounds
  have hy_lo : (0.019529 : ℝ) ≤
      Real.sqrt ((c2 * -se) ^ 2 + (c1 * s2 - s1 * c2 * ce) ^ 2) := by
    calc (0.019529 : ℝ) = Real.sqrt (0.019529 ^ 2) := (Real.sqrt_sq (by norm_num)).symm
    _ ≤ _ := Real.sqrt_le_sqrt (by linarith only [hS.1])
  have hy_hi : Real.sqrt ((c2 * -se) ^ 2 + (c1 * s2 - s1 * c2 * ce) ^ 2) ≤
      0.019642 := by
    calc Real.sqrt ((c2 * -se) ^ 2 + (c1 * s2 - s1 * c2 * ce) ^ 2)
        ≤ Real.sqrt (0.019642 ^ 2) := Real.sqrt_le_sqrt (by linarith only [hS.2])
    _ = 0.019642 := Real.sqrt_sq (by norm_num)
  -- quotient bounds
  have ht_lo : (0.019528 : ℝ) ≤
      Real.sqrt ((c2 * -se) ^ 2 + (c1 * s2 - s1 * c2 * ce) ^ 2) /
        (s1 * s2 + c1 * c2 * ce) := by
    rw [le_div_iff₀ hxpos]
    linarith only [hy_lo, hx.2]
  have ht_hi : Real.sqrt ((c2 * -se) ^ 2 + (c1 * s2 - s1 * c2 * ce) ^ 2) /
      (s1 * s2 + c1 * c2 * ce) ≤ 0.019658 := by
    rw [div_le_iff₀ hxpos]
    linarith only [hy_hi, hx.1]
  -- arctangent bounds
  have hat_hi : Real.arctan (Real.sqrt ((c2 * -se) ^ 2 +
      (c1 * s2 - s1 * c2 * ce) ^ 2) / (s1 * s2 + c1 * c2 * ce)) ≤ 0.019658 := by
    have h0 : (0 : ℝ) ≤ Real.sqrt ((c2 * -se) ^ 2 + (c1 * s2 - s1 * c2 * ce) ^ 2) /
        (s1 * s2 + c1 * c2 * ce) :=
      div_nonneg (Real.sqrt_nonneg _) (le_of_lt hxpos)
    exact le_trans (arctan_le_self_of_nonneg _ h0) ht_hi
  have hat_lo : (0.0189 : ℝ) < Real.arctan (Real.sqrt ((c2 * -se) ^ 2 +
      (c1 * s2 - s1 * c2 * ce) ^ 2) / (s1 * s2 + c1 * c2 * ce)) := by
    have hcos189 := Real.cos_bound (show |(0.0189 : ℝ)| ≤ 1 by
      rw [abs_of_nonneg (by norm_num : (0:ℝ) ≤ 0.0189)]; norm_num)
    rw [abs_of_nonneg (by norm_num : (0:ℝ) ≤ 0.0189), abs_le] at hcos189
    have hcpos : (0.9998 : ℝ) ≤ Real.cos 0.0189 := by linarith only [hcos189.1]
    have hsin189 := Real.sin_lt (show (0 : ℝ) < 0.0189 by norm_num)
    have htan : Real.tan 0.0189 < Real.sqrt ((c2 * -se) ^ 2 +
        (c1 * s2 - s1 * c2 * ce) ^ 2) / (s1 * s2 + c1 * c2 * ce) := by
      rw [Real.tan_eq_sin_div_cos,
        div_lt_iff₀ (by linarith only [hcpos] : (0:ℝ) < Real.cos 0.0189)]
      have h2 : (0.019528 : ℝ) * 0.9998 ≤ (Real.sqrt ((c2 * -se) ^ 2 +
          (c1 * s2 - s1 * c2 * ce) ^ 2) / (s1 * s2 + c1 * c2 * ce)) *
          Real.cos 0.0189 := by
        apply mul_le_mul ht_lo hcpos (by norm_num)
        linarith only [ht_lo]
      linarith only [hsin189, h2]
    have harc := Real.arctan_strictMono htan
    rw [Real.arctan_tan (by linarith only [hπl]) (by linarith only [hπl])] at harc
    exact harc
  -- assemble: the great-circle distance is 6371.009 times the arctangent
  have hgc : great_circle_km (13.08, 80.27) (12.92, 79.13) =
      6371.009 * Real.arctan (Real.sqrt ((c2 * -se) ^ 2 +
        (c1 * s2 - s1 * c2 * ce) ^ 2) / (s1 * s2 + c1 * c2 * ce)) := by
    simp only [great_circle_km]
    rw [show deg2rad 79.13 - deg2rad 80.27 = -(deg2rad 80.27 - deg2rad 79.13) from
      by ring]
    rw [Real.sin_neg, Real.cos_neg]
    rw [← hs1def, ← hc1def, ← hs2def, ← hc2def, ← hsedef, ← hcedef]
    rw [atan2, if_pos hxpos]
  rw [hgc]
  constructor
  · linarith only [hat_lo]
  · linarith only [hat_hi]

/-- Claim C5: the geo-proximity component of `get_recommended_posts` is the
tier map of the great-circle distance — 1.0 at up to 50 km, 0.6 above 50
and up to 120 km, 0.3 above 120 and up to 300 km, 0 beyond — and for the
user coordinates (13.08, 80.27) and post coordinates (12.92, 79.13),
whose great-circle distance is about 125 km, the score is 0.3. -/
theorem c5_geo_proximity_tiers (u p : ℝ × ℝ) :
    (great_circle_km u p ≤ 50 → postLocationScoreR (some u) (some p) = 1) ∧
    (50 < great_circle_km u p → great_circle_km u p ≤ 120 →
      postLocationScoreR (some u) (some p) = 0.6) ∧
    (120 < great_circle_km u p → great_circle_km u p ≤ 300 →
      postLocationScoreR (some u) (some p) = 0.3) ∧
    (300 < great_circle_km u p → postLocationScoreR (some u) (some p) = 0) ∧
    postLocationScoreR (some (13.08, 80.27)) (some (12.92, 79.13)) = 0.3 := by
  have htier : ∀ (a b : ℝ × ℝ), 120 < great_circle_km a b →
      great_circle_km a b ≤ 300 → postLocationScoreR (some a) (some b) = 0.3 := by
    intro a b h1 h2
    simp only [postLocationScoreR]
    rw [if_neg (by linarith), if_neg (by linarith), if_pos h2]
  refine ⟨?_, ?_, htier u p, ?_, ?_⟩
  · intro h
    simp only [postLocationScoreR]
    rw [if_pos h]
  · intro h1 h2
    simp only [postLocationScoreR]
    rw [if_neg (by linarith), if_pos h2]
  · intro h
    simp only [postLocationScoreR]
    rw [if_neg (by linarith), if_neg (by linarith), if_neg (by linarith)]
  · exact htier _ _ chennai_vellore_distance.1 chennai_vellore_distance.2

/-- Witness for `c5_geo_proximity_tiers`: coinciding coordinates are at
distance 0, in the innermost tier, and the Chennai-Vellore pair scores
0.3. -/
theorem c5_geo_tiers_witness :
    great_circle_km ((0 : ℝ), (0 : ℝ)) ((0 : ℝ), (0 : ℝ)) ≤ 50 ∧
    postLocationScoreR (some ((0 : ℝ), (0 : ℝ))) (some ((0 : ℝ), (0 : ℝ))) = 1 ∧
    postLocationScoreR (some ((13.08 : ℝ), (80.27 : ℝ)))
      (some ((12.92 : ℝ), (79.13 : ℝ))) = 0.3 := by
  have hz : deg2rad 0 = 0 := by rw [deg2rad]; ring
  have h00 : great_circle_km ((0 : ℝ), (0 : ℝ)) ((0 : ℝ), (0 : ℝ)) = 0 := by
    simp only [great_circle_km, hz]
    rw [sub_self, Real.sin_zero, Real.cos_zero]
    norm_num [atan2, Real.sqrt_zero, Real.arctan_zero]
  have h50 : great_circle_km ((0 : ℝ), (0 : ℝ)) ((0 : ℝ), (0 : ℝ)) ≤ 50 := by
    rw [h00]; norm_num
  exact ⟨h50, (c5_geo_proximity_tiers (0, 0) (0, 0)).1 h50,
    (c5_geo_proximity_tiers (0, 0) (0, 0)).2.2.2.2⟩

end SkillSphere
